import Mathlib

/-!
Verification of the stratinho AHRS repository against its natural-language
specification.  The Go source is shallowly embedded over the real numbers:
float64 arithmetic is modelled as exact real arithmetic, `math.Sqrt` as
`Real.sqrt`, `math.Atan2 y x` as `Complex.arg (x + y*I)`, and the
`go.matrix` dense matrices as Mathlib matrices over `ℝ`.  Sequential
mutation of struct fields in Go is modelled by explicit `let`-chains that
preserve the source's read/write order.
-/

open scoped Real

namespace Ahrs

/-- Acceleration due to gravity in kt/s, from `src/ahrs/ahrs.go` line 12. -/
noncomputable def G : ℝ := 32.1740 / 1.687810

/-- Sentinel variance for invalid sensors, `src/ahrs/ahrs.go` line 13. -/
def Big : ℝ := 1e9

/-- Degrees-to-radians factor, `src/ahrs/ahrs.go` line 14. -/
noncomputable def Deg : ℝ := Real.pi / 180

/-- The Kalman filter state, `src/ahrs/ahrs.go` lines 21-48.  `M` is the
32×32 covariance of state uncertainty and `N` the process-noise covariance
per unit time; `e11`..`e33` and `f11`..`f33` are the cached rotation-matrix
fragments for the quaternions `E` and `F` respectively. -/
structure State where
  U1 : ℝ
  U2 : ℝ
  U3 : ℝ
  Z1 : ℝ
  Z2 : ℝ
  Z3 : ℝ
  E0 : ℝ
  E1 : ℝ
  E2 : ℝ
  E3 : ℝ
  H1 : ℝ
  H2 : ℝ
  H3 : ℝ
  N1 : ℝ
  N2 : ℝ
  N3 : ℝ
  V1 : ℝ
  V2 : ℝ
  V3 : ℝ
  C1 : ℝ
  C2 : ℝ
  C3 : ℝ
  F0 : ℝ
  F1 : ℝ
  F2 : ℝ
  F3 : ℝ
  D1 : ℝ
  D2 : ℝ
  D3 : ℝ
  L1 : ℝ
  L2 : ℝ
  L3 : ℝ
  T : ℝ
  M : Matrix (Fin 32) (Fin 32) ℝ
  N : Matrix (Fin 32) (Fin 32) ℝ
  e11 : ℝ
  e12 : ℝ
  e13 : ℝ
  e21 : ℝ
  e22 : ℝ
  e23 : ℝ
  e31 : ℝ
  e32 : ℝ
  e33 : ℝ
  f11 : ℝ
  f12 : ℝ
  f13 : ℝ
  f21 : ℝ
  f22 : ℝ
  f23 : ℝ
  f31 : ℝ
  f32 : ℝ
  f33 : ℝ

/-- The measurement record, `src/ahrs/ahrs.go` lines 52-63.  `M` is the
15×15 measurement-noise covariance that `Update` mutates in place. -/
structure Measurement where
  UValid : Bool
  WValid : Bool
  SValid : Bool
  MValid : Bool
  U1 : ℝ
  U2 : ℝ
  U3 : ℝ
  W1 : ℝ
  W2 : ℝ
  W3 : ℝ
  A1 : ℝ
  A2 : ℝ
  A3 : ℝ
  B1 : ℝ
  B2 : ℝ
  B3 : ℝ
  M1 : ℝ
  M2 : ℝ
  M3 : ℝ
  T : ℝ
  M : Matrix (Fin 15) (Fin 15) ℝ

/-- Model of `go.matrix`'s `Set(i, j, v)`: overwrite one entry. -/
def mset {r c : ℕ} (A : Matrix (Fin r) (Fin c) ℝ) (i j : ℕ) (v : ℝ) :
    Matrix (Fin r) (Fin c) ℝ :=
  fun a b => if (a : ℕ) = i ∧ (b : ℕ) = j then v else A a b

/-- Model of `go.matrix`'s `Get(i, j)` (indices produced by the source are
always in range, so the out-of-range default is never reached). -/
def mget {r c : ℕ} (A : Matrix (Fin r) (Fin c) ℝ) (i j : ℕ) : ℝ :=
  if hi : i < r then if hj : j < c then A ⟨i, hi⟩ ⟨j, hj⟩ else 0 else 0

/-- `State.normalize`, `src/ahrs/ahrs.go` lines 66-101.  The source assigns
`s.e21` twice (lines 81 and 83, the second assignment winning) and never
assigns `s.e12`, which therefore keeps its previous value; the embedding
reproduces exactly that behaviour. -/
noncomputable def normalize (s : State) : State :=
  let ee := Real.sqrt (s.E0 * s.E0 + s.E1 * s.E1 + s.E2 * s.E2 + s.E3 * s.E3)
  let e0 := s.E0 / ee
  let e1 := s.E1 / ee
  let e2 := s.E2 / ee
  let e3 := s.E3 / ee
  let ff := Real.sqrt (s.F0 * s.F0 + s.F1 * s.F1 + s.F2 * s.F2 + s.F3 * s.F3)
  let f0 := s.F0 / ff
  let f1 := s.F1 / ff
  let f2 := s.F2 / ff
  let f3 := s.F3 / ff
  { s with
    E0 := e0, E1 := e1, E2 := e2, E3 := e3
    F0 := f0, F1 := f1, F2 := f2, F3 := f3
    e11 := 2 * (e0 * e0 + e1 * e1 - 0.5)
    -- line 81 stores 2*(e0*e3 + e1*e2) into e21; line 83 overwrites it below
    e13 := 2 * (-e0 * e2 + e1 * e3)
    e21 := 2 * (-e0 * e3 + e2 * e1)
    e22 := 2 * (e0 * e0 + e2 * e2 - 0.5)
    e23 := 2 * (e0 * e1 + e2 * e3)
    e31 := 2 * (e0 * e2 + e3 * e1)
    e32 := 2 * (-e0 * e1 + e3 * e2)
    e33 := 2 * (e0 * e0 + e3 * e3 - 0.5)
    f11 := 2 * (f0 * f0 + f1 * f1 - 0.5)
    f12 := 2 * (f0 * f3 + f1 * f2)
    f13 := 2 * (-f0 * f2 + f1 * f3)
    f21 := 2 * (-f0 * f3 + f2 * f1)
    f22 := 2 * (f0 * f0 + f2 * f2 - 0.5)
    f23 := 2 * (f0 * f1 + f2 * f3)
    f31 := 2 * (f0 * f2 + f3 * f1)
    f32 := 2 * (-f0 * f1 + f3 * f2)
    f33 := 2 * (f0 * f0 + f3 * f3 - 0.5) }

/-- Determinant of the cached earth-to-aircraft rotation fragments, read
off the nine `eij` fields of a state. -/
def eDet (s : State) : ℝ :=
  s.e11 * (s.e22 * s.e33 - s.e23 * s.e32)
    - s.e12 * (s.e21 * s.e33 - s.e23 * s.e31)
    + s.e13 * (s.e21 * s.e32 - s.e22 * s.e31)

/-- A state whose scalar fields, caches and matrices are all zero and whose
quaternions are the identity rotation. -/
noncomputable def baseState : State :=
  { U1 := 0, U2 := 0, U3 := 0, Z1 := 0, Z2 := 0, Z3 := 0
    E0 := 1, E1 := 0, E2 := 0, E3 := 0
    H1 := 0, H2 := 0, H3 := 0, N1 := 0, N2 := 0, N3 := 0
    V1 := 0, V2 := 0, V3 := 0, C1 := 0, C2 := 0, C3 := 0
    F0 := 1, F1 := 0, F2 := 0, F3 := 0
    D1 := 0, D2 := 0, D3 := 0, L1 := 0, L2 := 0, L3 := 0
    T := 0, M := 0, N := 0
    e11 := 0, e12 := 0, e13 := 0, e21 := 0, e22 := 0, e23 := 0
    e31 := 0, e32 := 0, e33 := 0
    f11 := 0, f12 := 0, f13 := 0, f21 := 0, f22 := 0, f23 := 0
    f31 := 0, f32 := 0, f33 := 0 }

/-- A freshly zero-initialized state carrying the unit quaternion
`E = (3/5, 0, 0, 4/5)`, for which the correct rotation matrix has entry
`r12 = 2*(E0*E3 + E1*E2) = 24/25 ≠ 0`. -/
noncomputable def stateC1 : State :=
  { baseState with E0 := 3 / 5, E3 := 4 / 5 }

/-- `State.PredictMeasurement`, `src/ahrs/ahrs.go` lines 325-363.  The Go
method first calls `s.normalize()`, mutating the receiver, so the model
returns the mutated state together with the predicted measurement.  The
fresh `Measurement`'s noise matrix is zero-initialized and never read. -/
noncomputable def predictMeasurement (s : State) : State × Measurement :=
  let s := normalize s
  let a1 := -s.Z1 + (s.H2 * s.U3 - s.H3 * s.U2) * Deg / G - s.e31
  let a2 := -s.Z2 + (s.H3 * s.U1 - s.H1 * s.U3) * Deg / G - s.e32
  let a3 := -s.Z3 + (s.H1 * s.U2 - s.H2 * s.U1) * Deg / G - s.e33
  let m1 := s.N1 * s.e11 + s.N2 * s.e21 + s.N3 * s.e31 + s.L1
  let m2 := s.N1 * s.e12 + s.N2 * s.e22 + s.N3 * s.e32 + s.L2
  let m3 := s.N1 * s.e13 + s.N2 * s.e23 + s.N3 * s.e33 + s.L3
  (s,
    { UValid := true, WValid := true, SValid := true, MValid := true
      W1 := s.e11 * s.U1 + s.e12 * s.U2 + s.e13 * s.U3 + s.V1
      W2 := s.e21 * s.U1 + s.e22 * s.U2 + s.e23 * s.U3 + s.V2
      W3 := s.e31 * s.U1 + s.e32 * s.U2 + s.e33 * s.U3 + s.V3
      U1 := s.U1, U2 := s.U2, U3 := s.U3
      A1 := a1 * s.f11 + a2 * s.f21 + a3 * s.f31 + s.C1
      A2 := a1 * s.f12 + a2 * s.f22 + a3 * s.f32 + s.C2
      A3 := a1 * s.f13 + a2 * s.f23 + a3 * s.f33 + s.C3
      B1 := s.H1 * s.f11 + s.H2 * s.f21 + s.H3 * s.f31 + s.D1
      B2 := s.H1 * s.f12 + s.H2 * s.f22 + s.H3 * s.f32 + s.D2
      B3 := s.H1 * s.f13 + s.H2 * s.f23 + s.H3 * s.f33 + s.D3
      M1 := s.f11 * m1 + s.f21 * m2 + s.f31 * m3 + s.L1
      M2 := s.f12 * m1 + s.f22 * m2 + s.f32 * m3 + s.L2
      M3 := s.f13 * m1 + s.f23 * m2 + s.f33 * m3 + s.L3
      T := s.T, M := 0 })

/-- Modelled from the spec: §4.5's magnetometer sentence — rotate `N`
(earth frame) into the aircraft frame via `E`, then into the sensor frame
via `F`, then add the bias `L` exactly once.  The rotation fragments are
derived from the quaternions by the standard formulas honoring the repo's
transpose convention (the entries `normalize` was meant to cache). -/
noncomputable def specMagnetometer (s : State) : ℝ × ℝ × ℝ :=
  let e11 := 2 * (s.E0 * s.E0 + s.E1 * s.E1 - 0.5)
  let e12 := 2 * (s.E0 * s.E3 + s.E1 * s.E2)
  let e13 := 2 * (-s.E0 * s.E2 + s.E1 * s.E3)
  let e21 := 2 * (-s.E0 * s.E3 + s.E2 * s.E1)
  let e22 := 2 * (s.E0 * s.E0 + s.E2 * s.E2 - 0.5)
  let e23 := 2 * (s.E0 * s.E1 + s.E2 * s.E3)
  let e31 := 2 * (s.E0 * s.E2 + s.E3 * s.E1)
  let e32 := 2 * (-s.E0 * s.E1 + s.E3 * s.E2)
  let e33 := 2 * (s.E0 * s.E0 + s.E3 * s.E3 - 0.5)
  let f11 := 2 * (s.F0 * s.F0 + s.F1 * s.F1 - 0.5)
  let f12 := 2 * (s.F0 * s.F3 + s.F1 * s.F2)
  let f13 := 2 * (-s.F0 * s.F2 + s.F1 * s.F3)
  let f21 := 2 * (-s.F0 * s.F3 + s.F2 * s.F1)
  let f22 := 2 * (s.F0 * s.F0 + s.F2 * s.F2 - 0.5)
  let f23 := 2 * (s.F0 * s.F1 + s.F2 * s.F3)
  let f31 := 2 * (s.F0 * s.F2 + s.F3 * s.F1)
  let f32 := 2 * (-s.F0 * s.F1 + s.F3 * s.F2)
  let f33 := 2 * (s.F0 * s.F0 + s.F3 * s.F3 - 0.5)
  let m1 := s.N1 * e11 + s.N2 * e21 + s.N3 * e31
  let m2 := s.N1 * e12 + s.N2 * e22 + s.N3 * e32
  let m3 := s.N1 * e13 + s.N2 * e23 + s.N3 * e33
  (f11 * m1 + f21 * m2 + f31 * m3 + s.L1,
   f12 * m1 + f22 * m2 + f32 * m3 + s.L2,
   f13 * m1 + f23 * m2 + f33 * m3 + s.L3)

/-- A state with identity quaternions, zero magnetic field `N` and
magnetometer bias `L = (1, 0, 0)`. -/
noncomputable def stateC3 : State :=
  { baseState with L1 := 1 }

/-- `State.calcJacobianState`, `src/ahrs/ahrs.go` lines 365-398.  Besides
building the 32×32 Jacobian, the Go method mutates the receiver's
quaternion `E` in place (lines 376-379), each `+=` reading the components
already updated above it; the model returns the Jacobian together with the
mutated state. -/
noncomputable def calcJacobianState (s : State) (t : ℝ) :
    Matrix (Fin 32) (Fin 32) ℝ × State :=
  let dt := t - s.T
  let jac : Matrix (Fin 32) (Fin 32) ℝ := 1
  let jac := mset jac 0 3 dt
  let jac := mset jac 1 4 dt
  let jac := mset jac 2 5 dt
  let e0 := s.E0 + 0.5 * dt * (-s.H1 * s.E1 - s.H2 * s.E2 - s.H3 * s.E3) * Deg
  let e1 := s.E1 + 0.5 * dt * (s.H1 * e0 + s.H2 * s.E3 - s.H3 * s.E2) * Deg
  let e2 := s.E2 + 0.5 * dt * (-s.H1 * s.E3 + s.H2 * e0 + s.H3 * e1) * Deg
  let e3 := s.E3 + 0.5 * dt * (s.H1 * e2 - s.H2 * e1 + s.H3 * e0) * Deg
  let jac := mset jac 6 7 (-0.5 * dt * s.H1 * Deg)
  let jac := mset jac 6 8 (-0.5 * dt * s.H2 * Deg)
  let jac := mset jac 6 9 (-0.5 * dt * s.H3 * Deg)
  let jac := mset jac 7 6 (0.5 * dt * s.H1 * Deg)
  let jac := mset jac 7 8 (-0.5 * dt * s.H3 * Deg)
  let jac := mset jac 7 9 (0.5 * dt * s.H2 * Deg)
  let jac := mset jac 8 6 (0.5 * dt * s.H2 * Deg)
  let jac := mset jac 8 7 (0.5 * dt * s.H3 * Deg)
  let jac := mset jac 8 9 (-0.5 * dt * s.H1 * Deg)
  let jac := mset jac 9 6 (0.5 * dt * s.H3 * Deg)
  let jac := mset jac 9 7 (-0.5 * dt * s.H2 * Deg)
  let jac := mset jac 9 8 (0.5 * dt * s.H1 * Deg)
  (jac, { s with E0 := e0, E1 := e1, E2 := e2, E3 := e3 })

/-- The state reached by `State.Predict` (`src/ahrs/ahrs.go` lines 176-195)
just before the final `normalize` call: the state already mutated by
`calcJacobianState`, with the airspeed update `U += dt*Z/G` and the
(second) sequential quaternion increment of lines 184-187 applied. -/
noncomputable def predictPre (s : State) (t : ℝ) : State :=
  let s1 := (calcJacobianState s t).2
  let dt := t - s.T
  let s2 := { s1 with
    U1 := s1.U1 + dt * s1.Z1 / G
    U2 := s1.U2 + dt * s1.Z2 / G
    U3 := s1.U3 + dt * s1.Z3 / G }
  let e0 := s2.E0 + 0.5 * dt * (-s2.H1 * s2.E1 - s2.H2 * s2.E2 - s2.H3 * s2.E3) * Deg
  let e1 := s2.E1 + 0.5 * dt * (s2.H1 * e0 + s2.H2 * s2.E3 - s2.H3 * s2.E2) * Deg
  let e2 := s2.E2 + 0.5 * dt * (-s2.H1 * s2.E3 + s2.H2 * e0 + s2.H3 * e1) * Deg
  let e3 := s2.E3 + 0.5 * dt * (s2.H1 * e2 - s2.H2 * e1 + s2.H3 * e0) * Deg
  { s2 with E0 := e0, E1 := e1, E2 := e2, E3 := e3 }

/-- `State.Predict`, `src/ahrs/ahrs.go` lines 176-195: Jacobian (with its
side effect on `E`), nonlinear propagation, renormalization, timestamp
update and covariance propagation `M ← F·M·Fᵀ + dt·N`. -/
noncomputable def Predict (s : State) (t : ℝ) : State :=
  let f := (calcJacobianState s t).1
  let dt := t - s.T
  let s4 := normalize (predictPre s t)
  { s4 with T := t, M := f * (s.M * f.transpose) + dt • s.N }

/-- Modelled from the spec: §4.3's scalar propagation before renormalizing
— `U ← U + δ·Z/G` and one single simultaneous Euler step
`E ← E + (δ/2)·Ω(H)·E` in degrees, with `T ← t`; every other scalar
unchanged.  (The covariance update is omitted: only the scalar propagation
is compared.) -/
noncomputable def specEulerPre (s : State) (t : ℝ) : State :=
  let dt := t - s.T
  { s with
    U1 := s.U1 + dt * s.Z1 / G
    U2 := s.U2 + dt * s.Z2 / G
    U3 := s.U3 + dt * s.Z3 / G
    E0 := s.E0 + 0.5 * dt * (-s.H1 * s.E1 - s.H2 * s.E2 - s.H3 * s.E3) * Deg
    E1 := s.E1 + 0.5 * dt * (s.H1 * s.E0 + s.H2 * s.E3 - s.H3 * s.E2) * Deg
    E2 := s.E2 + 0.5 * dt * (-s.H1 * s.E3 + s.H2 * s.E0 + s.H3 * s.E1) * Deg
    E3 := s.E3 + 0.5 * dt * (s.H1 * s.E2 - s.H2 * s.E1 + s.H3 * s.E0) * Deg
    T := t }

/-- Modelled from the spec: §4.3's full step — the propagation above
followed by renormalization. -/
noncomputable def specEulerPredict (s : State) (t : ℝ) : State :=
  normalize (specEulerPre s t)

/-- Squared norm of the `E` quaternion of a state, written exactly as
`normalize` computes it. -/
def eNormSq (s : State) : ℝ :=
  s.E0 * s.E0 + s.E1 * s.E1 + s.E2 * s.E2 + s.E3 * s.E3

/-- Squared norm of the `F` quaternion of a state. -/
def fNormSq (s : State) : ℝ :=
  s.F0 * s.F0 + s.F1 * s.F1 + s.F2 * s.F2 + s.F3 * s.F3

/-- `State.calcJacobianMeasurement`, `src/ahrs/ahrs.go` lines 401-559.
Rows 12-14 (the magnetometer block) are commented out in the source, so
those rows stay zero here as well. -/
noncomputable def calcJacobianMeasurement (s : State) :
    Matrix (Fin 15) (Fin 32) ℝ :=
  let jac : Matrix (Fin 15) (Fin 32) ℝ := 0
  let jac := mset jac 0 0 1
  let jac := mset jac 1 1 1
  let jac := mset jac 2 2 1
  let jac := mset jac 3 0 s.e11
  let jac := mset jac 3 1 s.e12
  let jac := mset jac 3 2 s.e13
  let jac := mset jac 3 6 (2 * (s.E0 * s.U1 - s.E3 * s.U2 + s.E2 * s.U3))
  let jac := mset jac 3 7 (2 * (s.E1 * s.U1 + s.E2 * s.U2 + s.E3 * s.U3))
  let jac := mset jac 3 8 (2 * (-s.E2 * s.U1 + s.E1 * s.U2 + s.E0 * s.U3))
  let jac := mset jac 3 9 (2 * (-s.E3 * s.U1 - s.E0 * s.U2 + s.E1 * s.U3))
  let jac := mset jac 3 16 1
  let jac := mset jac 4 0 s.e21
  let jac := mset jac 4 1 s.e22
  let jac := mset jac 4 2 s.e23
  let jac := mset jac 4 6 (2 * (s.E3 * s.U1 + s.E0 * s.U2 - s.E1 * s.U3))
  let jac := mset jac 4 7 (2 * (s.E2 * s.U1 - s.E1 * s.U2 - s.E0 * s.U3))
  let jac := mset jac 4 8 (2 * (s.E1 * s.U1 + s.E2 * s.U2 + s.E3 * s.U3))
  let jac := mset jac 4 9 (2 * (s.E0 * s.U1 - s.E3 * s.U2 + s.E2 * s.U3))
  let jac := mset jac 4 17 1
  let jac := mset jac 5 0 s.e31
  let jac := mset jac 5 1 s.e32
  let jac := mset jac 5 2 s.e33
  let jac := mset jac 5 6 (2 * (-s.E2 * s.U1 + s.E1 * s.U2 + s.E0 * s.U3))
  let jac := mset jac 5 7 (2 * (s.E3 * s.U1 + s.E0 * s.U2 - s.E1 * s.U3))
  let jac := mset jac 5 8 (2 * (-s.E0 * s.U1 + s.E3 * s.U2 - s.E2 * s.U3))
  let jac := mset jac 5 9 (2 * (s.E1 * s.U1 + s.E2 * s.U2 + s.E3 * s.U3))
  let jac := mset jac 5 18 1
  let a1 := -s.Z1 + (s.H2 * s.U3 - s.H3 * s.U2) * Deg / G - s.e31
  let a2 := -s.Z2 + (s.H3 * s.U1 - s.H1 * s.U3) * Deg / G - s.e32
  let a3 := -s.Z3 + (s.H1 * s.U2 - s.H2 * s.U1) * Deg / G - s.e33
  let jac := mset jac 6 0 ((s.H3 * s.f21 - s.H2 * s.f31) * Deg / G)
  let jac := mset jac 6 1 ((s.H1 * s.f31 - s.H3 * s.f11) * Deg / G)
  let jac := mset jac 6 2 ((s.H2 * s.f11 - s.H1 * s.f21) * Deg / G)
  let jac := mset jac 6 3 (-s.f11)
  let jac := mset jac 6 4 (-s.f21)
  let jac := mset jac 6 5 (-s.f31)
  let jac := mset jac 6 6 (-2 * (-s.E2 * s.f11 + s.E1 * s.f21 + s.E0 * s.f31))
  let jac := mset jac 6 7 (-2 * (s.E3 * s.f11 + s.E0 * s.f21 - s.E1 * s.f31))
  let jac := mset jac 6 8 (-2 * (-s.E0 * s.f11 + s.E3 * s.f21 - s.E2 * s.f31))
  let jac := mset jac 6 9 (-2 * (s.E1 * s.f11 + s.E2 * s.f21 + s.E3 * s.f31))
  let jac := mset jac 6 10 ((s.U2 * s.f31 - s.U3 * s.f21) * Deg / G)
  let jac := mset jac 6 11 ((s.U3 * s.f11 - s.U1 * s.f31) * Deg / G)
  let jac := mset jac 6 12 ((s.U1 * s.f21 - s.U2 * s.f11) * Deg / G)
  let jac := mset jac 6 19 1
  let jac := mset jac 6 22 (2 * (s.F0 * a1 + s.F3 * a2 - s.F2 * a3))
  let jac := mset jac 6 23 (2 * (s.F1 * a1 + s.F2 * a2 + s.F3 * a3))
  let jac := mset jac 6 24 (2 * (-s.F2 * a1 + s.F1 * a2 - s.F0 * a3))
  let jac := mset jac 6 25 (2 * (-s.F3 * a1 + s.F0 * a2 + s.F1 * a3))
  let jac := mset jac 7 0 ((s.H3 * s.f22 - s.H2 * s.f32) * Deg / G)
  let jac := mset jac 7 1 ((s.H1 * s.f32 - s.H3 * s.f12) * Deg / G)
  let jac := mset jac 7 2 ((s.H2 * s.f12 - s.H1 * s.f22) * Deg / G)
  let jac := mset jac 7 3 (-s.f12)
  let jac := mset jac 7 4 (-s.f22)
  let jac := mset jac 7 5 (-s.f32)
  let jac := mset jac 7 6 (-2 * (-s.E2 * s.f12 + s.E1 * s.f22 + s.E0 * s.f32))
  let jac := mset jac 7 7 (-2 * (s.E3 * s.f12 + s.E0 * s.f22 - s.E1 * s.f32))
  let jac := mset jac 7 8 (-2 * (-s.E0 * s.f12 + s.E3 * s.f22 - s.E2 * s.f32))
  let jac := mset jac 7 9 (-2 * (s.E1 * s.f12 + s.E2 * s.f22 + s.E3 * s.f32))
  let jac := mset jac 7 10 ((s.U2 * s.f32 - s.U3 * s.f22) * Deg / G)
  let jac := mset jac 7 11 ((s.U3 * s.f12 - s.U1 * s.f32) * Deg / G)
  let jac := mset jac 7 12 ((s.U1 * s.f22 - s.U2 * s.f12) * Deg / G)
  let jac := mset jac 7 20 1
  let jac := mset jac 7 22 (2 * (-s.F3 * a1 + s.F0 * a2 + s.F1 * a3))
  let jac := mset jac 7 23 (2 * (s.F2 * a1 - s.F1 * a2 + s.F0 * a3))
  let jac := mset jac 7 24 (2 * (s.F1 * a1 + s.F2 * a2 + s.F3 * a3))
  let jac := mset jac 7 25 (2 * (-s.F0 * a1 - s.F3 * a2 + s.F2 * a3))
  let jac := mset jac 8 0 ((s.H3 * s.f23 - s.H2 * s.f33) * Deg / G)
  let jac := mset jac 8 1 ((s.H1 * s.f33 - s.H3 * s.f13) * Deg / G)
  let jac := mset jac 8 2 ((s.H2 * s.f13 - s.H1 * s.f23) * Deg / G)
  let jac := mset jac 8 3 (-s.f13)
  let jac := mset jac 8 4 (-s.f23)
  let jac := mset jac 8 5 (-s.f33)
  let jac := mset jac 8 6 (-2 * (-s.E2 * s.f13 + s.E1 * s.f23 + s.E0 * s.f33))
  let jac := mset jac 8 7 (-2 * (s.E3 * s.f13 + s.E0 * s.f23 - s.E1 * s.f33))
  let jac := mset jac 8 8 (-2 * (-s.E0 * s.f13 + s.E3 * s.f23 - s.E2 * s.f33))
  let jac := mset jac 8 9 (-2 * (s.E1 * s.f13 + s.E2 * s.f23 + s.E3 * s.f33))
  let jac := mset jac 8 10 ((s.U2 * s.f33 - s.U3 * s.f23) * Deg / G)
  let jac := mset jac 8 11 ((s.U3 * s.f13 - s.U1 * s.f33) * Deg / G)
  let jac := mset jac 8 12 ((s.U1 * s.f23 - s.U2 * s.f13) * Deg / G)
  let jac := mset jac 8 21 1
  let jac := mset jac 8 22 (2 * (s.F2 * a1 - s.F1 * a2 + s.F0 * a3))
  let jac := mset jac 8 23 (2 * (s.F3 * a1 - s.F0 * a2 - s.F1 * a3))
  let jac := mset jac 8 24 (2 * (s.F0 * a1 + s.F3 * a2 - s.F2 * a3))
  let jac := mset jac 8 25 (2 * (s.F1 * a1 + s.F2 * a2 + s.F3 * a3))
  let jac := mset jac 9 10 s.f11
  let jac := mset jac 9 11 s.f21
  let jac := mset jac 9 12 s.f31
  let jac := mset jac 9 26 1
  let jac := mset jac 10 10 s.f12
  let jac := mset jac 10 11 s.f22
  let jac := mset jac 10 12 s.f32
  let jac := mset jac 10 27 1
  let jac := mset jac 11 10 s.f13
  let jac := mset jac 11 11 s.f23
  let jac := mset jac 11 12 s.f33
  let jac := mset jac 11 28 1
  jac

/-- The raw innovation column `y = m - ẑ` built by `State.Update`,
`src/ahrs/ahrs.go` lines 201-216, before the validity-flag zeroing. -/
noncomputable def updateYraw (s : State) (m : Measurement) :
    Matrix (Fin 15) (Fin 1) ℝ :=
  let z := (predictMeasurement s).2
  let y : Matrix (Fin 15) (Fin 1) ℝ := 0
  let y := mset y 0 0 (m.U1 - z.U1)
  let y := mset y 1 0 (m.U2 - z.U2)
  let y := mset y 2 0 (m.U3 - z.U3)
  let y := mset y 3 0 (m.W1 - z.W1)
  let y := mset y 4 0 (m.W2 - z.W2)
  let y := mset y 5 0 (m.W3 - z.W3)
  let y := mset y 6 0 (m.A1 - z.A1)
  let y := mset y 7 0 (m.A2 - z.A2)
  let y := mset y 8 0 (m.A3 - z.A3)
  let y := mset y 9 0 (m.B1 - z.B1)
  let y := mset y 10 0 (m.B2 - z.B2)
  let y := mset y 11 0 (m.B3 - z.B3)
  let y := mset y 12 0 (m.M1 - z.M1)
  let y := mset y 13 0 (m.M2 - z.M2)
  let y := mset y 14 0 (m.M3 - z.M3)
  y

/-- The innovation column after the validity-flag handling of
`src/ahrs/ahrs.go` lines 220-278: each invalid group's entries are zeroed.
Rows 1 and 2 are never zeroed (the coordinated-flight bias of lines
227-230). -/
noncomputable def updateY (s : State) (m : Measurement) :
    Matrix (Fin 15) (Fin 1) ℝ :=
  let y := updateYraw s m
  let y := if m.UValid then y else mset y 0 0 0
  let y := if m.WValid then y else mset (mset (mset y 3 0 0) 4 0 0) 5 0 0
  let y := if m.SValid then y else
    mset (mset (mset (mset (mset (mset y 6 0 0) 7 0 0) 8 0 0) 9 0 0) 10 0 0)
      11 0 0
  let y := if m.MValid then y else mset (mset (mset y 12 0 0) 13 0 0) 14 0 0
  y

/-- The measurement-noise covariance after the validity-flag handling of
`src/ahrs/ahrs.go` lines 220-278, starting from the measurement's own `M`
matrix that the Go code mutates in place. -/
noncomputable def updateR (m : Measurement) : Matrix (Fin 15) (Fin 15) ℝ :=
  let r := m.M
  let r := if m.UValid then mset r 0 0 2 else mset r 0 0 Big
  let r := mset r 1 1 25
  let r := mset r 2 2 25
  let r := if m.WValid then mset (mset (mset r 3 3 0.2) 4 4 0.2) 5 5 0.2
    else mset (mset (mset r 3 3 Big) 4 4 Big) 5 5 Big
  let r := if m.SValid then
      mset (mset (mset (mset (mset (mset r 6 6 0.2) 7 7 0.2) 8 8 0.2) 9 9 1)
        10 10 1) 11 11 1
    else
      mset (mset (mset (mset (mset (mset r 6 6 Big) 7 7 Big) 8 8 Big) 9 9 Big)
        10 10 Big) 11 11 Big
  let r := if m.MValid then mset (mset (mset r 12 12 5) 13 13 5) 14 14 5
    else mset (mset (mset r 12 12 Big) 13 13 Big) 14 14 Big
  r

/-- The innovation covariance `S = H·M·Hᵀ + R` of `src/ahrs/ahrs.go` line
279, evaluated on the state as mutated by `PredictMeasurement`. -/
noncomputable def updateS (s : State) (m : Measurement) :
    Matrix (Fin 15) (Fin 15) ℝ :=
  let s1 := (predictMeasurement s).1
  let h := calcJacobianMeasurement s1
  h * (s1.M * h.transpose) + updateR m

/-- The corrected state of `src/ahrs/ahrs.go` lines 286-321 (before the
final `normalize`): Kalman gain `K = M·Hᵀ·S⁻¹`, correction `Δx = K·y`
added to every scalar in state order, `T ← m.T` and
`M ← (I - K·H)·M`. -/
noncomputable def updateCorrected (s : State) (m : Measurement) : State :=
  let s1 := (predictMeasurement s).1
  let h := calcJacobianMeasurement s1
  let y := updateY s m
  let kk := s1.M * (h.transpose * (updateS s m)⁻¹)
  let su := kk * y
  { s1 with
    U1 := s1.U1 + mget su 0 0
    U2 := s1.U2 + mget su 1 0
    U3 := s1.U3 + mget su 2 0
    Z1 := s1.Z1 + mget su 3 0
    Z2 := s1.Z2 + mget su 4 0
    Z3 := s1.Z3 + mget su 5 0
    E0 := s1.E0 + mget su 6 0
    E1 := s1.E1 + mget su 7 0
    E2 := s1.E2 + mget su 8 0
    E3 := s1.E3 + mget su 9 0
    H1 := s1.H1 + mget su 10 0
    H2 := s1.H2 + mget su 11 0
    H3 := s1.H3 + mget su 12 0
    N1 := s1.N1 + mget su 13 0
    N2 := s1.N2 + mget su 14 0
    N3 := s1.N3 + mget su 15 0
    V1 := s1.V1 + mget su 16 0
    V2 := s1.V2 + mget su 17 0
    V3 := s1.V3 + mget su 18 0
    C1 := s1.C1 + mget su 19 0
    C2 := s1.C2 + mget su 20 0
    C3 := s1.C3 + mget su 21 0
    F0 := s1.F0 + mget su 22 0
    F1 := s1.F1 + mget su 23 0
    F2 := s1.F2 + mget su 24 0
    F3 := s1.F3 + mget su 25 0
    D1 := s1.D1 + mget su 26 0
    D2 := s1.D2 + mget su 27 0
    D3 := s1.D3 + mget su 28 0
    L1 := s1.L1 + mget su 29 0
    L2 := s1.L2 + mget su 30 0
    L3 := s1.L3 + mget su 31 0
    T := m.T
    M := ((1 : Matrix (Fin 32) (Fin 32) ℝ) - kk * h) * s1.M }

/-- `State.Update`, `src/ahrs/ahrs.go` lines 198-323.  `go.matrix`'s
`Inverse` fails exactly on singular matrices, modelled here as `det S = 0`;
in that case the Go method logs a warning (the `true` flag) and returns
with the receiver only mutated by `PredictMeasurement`'s `normalize`.
Otherwise the correction is applied and the state renormalized. -/
noncomputable def Update (s : State) (m : Measurement) : State × Bool :=
  if (updateS s m).det = 0 then ((predictMeasurement s).1, true)
  else (normalize (updateCorrected s m), false)

/-- A measurement with all validity flags cleared, zero readings, zero
noise matrix and timestamp 5. -/
noncomputable def measC4 : Measurement :=
  { UValid := false, WValid := false, SValid := false, MValid := false
    U1 := 0, U2 := 0, U3 := 0, W1 := 0, W2 := 0, W3 := 0
    A1 := 0, A2 := 0, A3 := 0, B1 := 0, B2 := 0, B3 := 0
    M1 := 0, M2 := 0, M3 := 0, T := 5, M := 0 }

/-- A measurement with all validity flags cleared whose noise matrix
carries `Big` at entries (0,3) and (3,0), making the assembled `R` (and
hence `S` for a state with zero covariance) have two identical rows. -/
noncomputable def measC5 : Measurement :=
  { UValid := false, WValid := false, SValid := false, MValid := false
    U1 := 0, U2 := 0, U3 := 0, W1 := 0, W2 := 0, W3 := 0
    A1 := 0, A2 := 0, A3 := 0, B1 := 0, B2 := 0, B3 := 0
    M1 := 0, M2 := 0, M3 := 0, T := 5
    M := mset (mset (0 : Matrix (Fin 15) (Fin 15) ℝ) 0 3 Big) 3 0 Big }

/-- A measurement with all validity flags cleared, pitot reading
`U = (0, 1, 0)` and zero noise matrix. -/
noncomputable def measC6 : Measurement :=
  { UValid := false, WValid := false, SValid := false, MValid := false
    U1 := 0, U2 := 1, U3 := 0, W1 := 0, W2 := 0, W3 := 0
    A1 := 0, A2 := 0, A3 := 0, B1 := 0, B2 := 0, B3 := 0
    M1 := 0, M2 := 0, M3 := 0, T := 0, M := 0 }

/-- The zero state with gyro rate `H = (1, 0, 0)` °/s and identity
quaternions, advanced from `T = 0` to `t = 1`. -/
noncomputable def stateC2 : State :=
  { baseState with H1 := 1 }

end Ahrs

namespace Sim

/-- Model of Go's `math.Atan2 y x` as the argument of the complex number
`x + y·i` (they agree up to the bottom branch cut, and everywhere modulo
2π). -/
noncomputable def atan2 (y x : ℝ) : ℝ :=
  Complex.arg (Complex.ofReal x + Complex.ofReal y * Complex.I)

/-- `ToQuaternion`, `src/sim/ahrs_sim.go` lines 37-52: half-angle formulae
after negating `phi` and shifting `psi` by `-π/2`. -/
noncomputable def ToQuaternion (phi theta psi : ℝ) : ℝ × ℝ × ℝ × ℝ :=
  let phi := -phi
  let psi := psi - π / 2
  let cphi := Real.cos (phi / 2)
  let sphi := Real.sin (phi / 2)
  let ctheta := Real.cos (theta / 2)
  let stheta := Real.sin (theta / 2)
  let cpsi := Real.cos (psi / 2)
  let spsi := Real.sin (psi / 2)
  (cphi * ctheta * cpsi - sphi * stheta * spsi,
   sphi * ctheta * cpsi + cphi * stheta * spsi,
   cphi * stheta * cpsi - sphi * ctheta * spsi,
   cphi * ctheta * spsi + sphi * stheta * cpsi)

/-- `FromQuaternion`, `src/sim/ahrs_sim.go` lines 56-64, including the
`psi < -1e-4` wrap. -/
noncomputable def FromQuaternion (q0 q1 q2 q3 : ℝ) : ℝ × ℝ × ℝ :=
  let phi := atan2 (-2 * (q0 * q1 - q2 * q3)) (q0 * q0 - q1 * q1 - q2 * q2 + q3 * q3)
  let theta := Real.arcsin (2 * (q0 * q2 + q3 * q1)
    / Real.sqrt (q0 * q0 + q1 * q1 + q2 * q2 + q3 * q3))
  let psi0 := π / 2 + atan2 (2 * (q0 * q3 - q1 * q2)) (q0 * q0 + q1 * q1 - q2 * q2 - q3 * q3)
  let psi := if psi0 < -1e-4 then psi0 + 2 * π else psi0
  (phi, theta, psi)

/-- A simulation scenario, `src/sim/ahrs_sim.go` lines 26-33: keyframe
times and keyframe values for each piecewise-linear channel. -/
structure Situation where
  t : List ℝ
  u1 : List ℝ
  u2 : List ℝ
  u3 : List ℝ
  phi : List ℝ
  theta : List ℝ
  psi : List ℝ
  phi0 : List ℝ
  theta0 : List ℝ
  psi0 : List ℝ
  v1 : List ℝ
  v2 : List ℝ
  v3 : List ℝ
  m1 : List ℝ
  m2 : List ℝ
  m3 : List ℝ

/-- The subset of the (older) `ahrs.State` fields that the simulator's
`interpolate` fills, `src/sim/ahrs_sim.go` lines 88-108; `T` is the Go
`uint32(t*1000 + 0.5)` millisecond stamp. -/
structure SimState where
  U1 : ℝ
  U2 : ℝ
  U3 : ℝ
  E0 : ℝ
  E1 : ℝ
  E2 : ℝ
  E3 : ℝ
  F0 : ℝ
  F1 : ℝ
  F2 : ℝ
  F3 : ℝ
  V1 : ℝ
  V2 : ℝ
  V3 : ℝ
  M1 : ℝ
  M2 : ℝ
  M3 : ℝ
  T : ℕ

/-- The Go zero value `ahrs.State{}` returned on a range error. -/
def zeroSimState : SimState :=
  { U1 := 0, U2 := 0, U3 := 0, E0 := 0, E1 := 0, E2 := 0, E3 := 0
    F0 := 0, F1 := 0, F2 := 0, F3 := 0, V1 := 0, V2 := 0, V3 := 0
    M1 := 0, M2 := 0, M3 := 0, T := 0 }

/-- The subset of the measurement fields the simulator's `measurement`
fills, `src/sim/ahrs_sim.go` lines 197-223. -/
structure SimMeasurement where
  W1 : ℝ
  W2 : ℝ
  W3 : ℝ
  M1 : ℝ
  M2 : ℝ
  M3 : ℝ
  U1 : ℝ
  U2 : ℝ
  U3 : ℝ
  T : ℕ

/-- The Go zero value `ahrs.Measurement{}` returned on a range error. -/
def zeroSimMeasurement : SimMeasurement :=
  { W1 := 0, W2 := 0, W3 := 0, M1 := 0, M2 := 0, M3 := 0
    U1 := 0, U2 := 0, U3 := 0, T := 0 }

/-- The Go conversion `uint32(t*1000 + 0.5)` (truncation toward zero for
the nonnegative times the simulator uses, wrapping modulo 2³²). -/
noncomputable def toT (t : ℝ) : ℕ :=
  (Int.toNat ⌊t * 1000 + 1 / 2⌋) % 2 ^ 32

/-- Model of Go's `sort.SearchFloat64s a x`: the smallest index `i` with
`x ≤ a[i]`, or `a.length` if there is none. -/
noncomputable def searchGE : List ℝ → ℝ → ℕ
  | [], _ => 0
  | a :: rest, x => if x ≤ a then 0 else searchGE rest x + 1

/-- `Situation.interpolate`, `src/sim/ahrs_sim.go` lines 67-109.  The
boolean is Go's non-nil error: `true` when `t` is outside the scenario
range. -/
noncomputable def interpolate (s : Situation) (t : ℝ) : SimState × Bool :=
  if t < s.t.getD 0 0 ∨ s.t.getD (s.t.length - 1) 0 < t then
    (zeroSimState, true)
  else
    let ix := if s.t.getD 0 0 < t then searchGE s.t t - 1 else 0
    let f := (s.t.getD (ix + 1) 0 - t) / (s.t.getD (ix + 1) 0 - s.t.getD ix 0)
    let q := ToQuaternion
      (f * s.phi.getD ix 0 + (1 - f) * s.phi.getD (ix + 1) 0)
      (f * s.theta.getD ix 0 + (1 - f) * s.theta.getD (ix + 1) 0)
      (f * s.psi.getD ix 0 + (1 - f) * s.psi.getD (ix + 1) 0)
    let ee := Real.sqrt (q.1 * q.1 + q.2.1 * q.2.1 + q.2.2.1 * q.2.2.1 + q.2.2.2 * q.2.2.2)
    let p := ToQuaternion
      (f * s.phi0.getD ix 0 + (1 - f) * s.phi0.getD (ix + 1) 0)
      (f * s.theta0.getD ix 0 + (1 - f) * s.theta0.getD (ix + 1) 0)
      (f * s.psi0.getD ix 0 + (1 - f) * s.psi0.getD (ix + 1) 0)
    let ff := Real.sqrt (p.1 * p.1 + p.2.1 * p.2.1 + p.2.2.1 * p.2.2.1 + p.2.2.2 * p.2.2.2)
    ({ U1 := f * s.u1.getD ix 0 + (1 - f) * s.u1.getD (ix + 1) 0
       U2 := f * s.u2.getD ix 0 + (1 - f) * s.u2.getD (ix + 1) 0
       U3 := f * s.u3.getD ix 0 + (1 - f) * s.u3.getD (ix + 1) 0
       E0 := q.1 / ee, E1 := q.2.1 / ee, E2 := q.2.2.1 / ee, E3 := q.2.2.2 / ee
       F0 := p.1 / ff, F1 := p.2.1 / ff, F2 := p.2.2.1 / ff, F3 := p.2.2.2 / ff
       V1 := f * s.v1.getD ix 0 + (1 - f) * s.v1.getD (ix + 1) 0
       V2 := f * s.v2.getD ix 0 + (1 - f) * s.v2.getD (ix + 1) 0
       V3 := f * s.v3.getD ix 0 + (1 - f) * s.v3.getD (ix + 1) 0
       M1 := f * s.m1.getD ix 0 + (1 - f) * s.m1.getD (ix + 1) 0
       M2 := f * s.m2.getD ix 0 + (1 - f) * s.m2.getD (ix + 1) 0
       M3 := f * s.m3.getD ix 0 + (1 - f) * s.m3.getD (ix + 1) 0
       T := toT t }, false)

/-- `Situation.derivative`, `src/sim/ahrs_sim.go` lines 112-149: forward
finite difference over 1 ms (shifted at the right end), errors from the
inner `interpolate` calls discarded exactly as in the source. -/
noncomputable def derivative (s : Situation) (t : ℝ) : SimState × Bool :=
  if t < s.t.getD 0 0 ∨ s.t.getD (s.t.length - 1) 0 < t then
    (zeroSimState, true)
  else
    let ddt : ℝ := 0.001
    let t1 := if s.t.getD (s.t.length - 1) 0 < t + ddt then s.t.getD (s.t.length - 1) 0 else t + ddt
    let t0 := if s.t.getD (s.t.length - 1) 0 < t + ddt then t1 - ddt else t
    let s0 := (interpolate s t0).1
    let s1 := (interpolate s t1).1
    ({ U1 := (s1.U1 - s0.U1) / ddt, U2 := (s1.U2 - s0.U2) / ddt
       U3 := (s1.U3 - s0.U3) / ddt
       E0 := (s1.E0 - s0.E0) / ddt, E1 := (s1.E1 - s0.E1) / ddt
       E2 := (s1.E2 - s0.E2) / ddt, E3 := (s1.E3 - s0.E3) / ddt
       F0 := (s1.F0 - s0.F0) / ddt, F1 := (s1.F1 - s0.F1) / ddt
       F2 := (s1.F2 - s0.F2) / ddt, F3 := (s1.F3 - s0.F3) / ddt
       V1 := (s1.V1 - s0.V1) / ddt, V2 := (s1.V2 - s0.V2) / ddt
       V3 := (s1.V3 - s0.V3) / ddt
       M1 := (s1.M1 - s0.M1) / ddt, M2 := (s1.M2 - s0.M2) / ddt
       M3 := (s1.M3 - s0.M3) / ddt
       T := toT t }, false)

/-- `Situation.measurement`, `src/sim/ahrs_sim.go` lines 191-225: the
ideal measurement synthesized from the interpolated state (the inner
`interpolate` error is discarded exactly as in the source). -/
noncomputable def measurement (s : Situation) (t : ℝ) : SimMeasurement × Bool :=
  if t < s.t.getD 0 0 ∨ s.t.getD (s.t.length - 1) 0 < t then
    (zeroSimMeasurement, true)
  else
    let x := (interpolate s t).1
    ({ W1 := x.V1 + x.U1 * 2 * (x.E0 * x.E0 + x.E1 * x.E1 - 0.5)
          + x.U2 * 2 * (x.E0 * x.E3 + x.E1 * x.E2)
          + x.U3 * 2 * (-x.E0 * x.E2 + x.E1 * x.E3)
       W2 := x.V2 + x.U1 * 2 * (-x.E0 * x.E3 + x.E2 * x.E1)
          + x.U2 * 2 * (x.E0 * x.E0 + x.E2 * x.E2 - 0.5)
          + x.U3 * 2 * (x.E0 * x.E1 + x.E2 * x.E3)
       W3 := x.V3 + x.U1 * 2 * (x.E0 * x.E2 + x.E3 * x.E1)
          + x.U2 * 2 * (-x.E0 * x.E1 + x.E3 * x.E2)
          + x.U3 * 2 * (x.E0 * x.E0 + x.E3 * x.E3 - 0.5)
       M1 := x.M1 * 2 * (x.E0 * x.E0 + x.E1 * x.E1 - 0.5)
          + x.M2 * 2 * (-x.E0 * x.E3 + x.E1 * x.E2)
          + x.M3 * 2 * (x.E0 * x.E2 + x.E1 * x.E3)
       M2 := x.M1 * 2 * (x.E0 * x.E3 + x.E2 * x.E1)
          + x.M2 * 2 * (x.E0 * x.E0 + x.E2 * x.E2 - 0.5)
          + x.M3 * 2 * (-x.E0 * x.E1 + x.E2 * x.E3)
       M3 := x.M1 * 2 * (-x.E0 * x.E2 + x.E3 * x.E1)
          + x.M2 * 2 * (x.E0 * x.E1 + x.E3 * x.E2)
          + x.M3 * 2 * (x.E0 * x.E0 + x.E3 * x.E3 - 0.5)
       U1 := x.U1, U2 := x.U2, U3 := x.U3
       T := toT t }, false)

/-- Modelled from the spec: §4.7's piecewise-linear interpolation between
the keyframes at `t0 < t1` with values `v0`, `v1`, evaluated at `x`. -/
noncomputable def lerp (t0 t1 v0 v1 x : ℝ) : ℝ :=
  v0 + (x - t0) / (t1 - t0) * (v1 - v0)

/-- The index of the left keyframe chosen by `interpolate`,
`src/sim/ahrs_sim.go` lines 71-74. -/
noncomputable def interpIx (s : Situation) (t : ℝ) : ℕ :=
  if s.t.getD 0 0 < t then searchGE s.t t - 1 else 0

/-- A two-keyframe scenario on `[0, 1]` with `u1` ramping from 0 to 2. -/
def sitC8 : Situation :=
  { t := [0, 1], u1 := [0, 2], u2 := [0, 0], u3 := [0, 0]
    phi := [0, 0], theta := [0, 0], psi := [0, 0]
    phi0 := [0, 0], theta0 := [0, 0], psi0 := [0, 0]
    v1 := [3, 3], v2 := [4, 4], v3 := [0, 0]
    m1 := [0, 0], m2 := [0, 0], m3 := [0, 0] }

end Sim

namespace Mpu

/-- The accumulator state of the driver, `src/mpu9250/mpu9250.go` lines
19-31: float64 sample counts `n`, `nm`, int32 accumulators and biases
(int32/int16 modelled as unbounded integers — `Read` only converts them,
never overflows them). -/
structure MPUState where
  scaleGyro : ℝ
  scaleAccel : ℝ
  sampleRate : ℤ
  n : ℝ
  nm : ℝ
  g1 : ℤ
  g2 : ℤ
  g3 : ℤ
  a1 : ℤ
  a2 : ℤ
  a3 : ℤ
  m1 : ℤ
  m2 : ℤ
  m3 : ℤ
  a01 : ℤ
  a02 : ℤ
  a03 : ℤ
  g01 : ℤ
  g02 : ℤ
  g03 : ℤ
  mcal1 : ℤ
  mcal2 : ℤ
  mcal3 : ℤ

/-- The value part of `MPU9250.Read`'s named returns (the wall-clock
timestamp `t = time.Now()` is outside the model); `gaError`/`magError`
are `true` when the corresponding Go error is non-nil. -/
structure ReadResult where
  g1 : ℝ
  g2 : ℝ
  g3 : ℝ
  a1 : ℝ
  a2 : ℝ
  a3 : ℝ
  m1 : ℝ
  m2 : ℝ
  m3 : ℝ
  gaError : Bool
  magError : Bool

/-- `MPU9250.Read`, `src/mpu9250/mpu9250.go` lines 347-375: average the
accumulators when samples exist, error otherwise, then reset all nine
accumulators and both counts.  `useMag` is the package-level `USEMAG`
constant (defined outside `src/`). -/
noncomputable def Read (useMag : Bool) (m : MPUState) : ReadResult × MPUState :=
  let r0 : ReadResult :=
    { g1 := 0, g2 := 0, g3 := 0, a1 := 0, a2 := 0, a3 := 0
      m1 := 0, m2 := 0, m3 := 0, gaError := false, magError := false }
  let r1 :=
    if m.n > 0 then
      { r0 with
        g1 := (m.g1 : ℝ) / m.n * m.scaleGyro
        g2 := (m.g2 : ℝ) / m.n * m.scaleGyro
        g3 := (m.g3 : ℝ) / m.n * m.scaleGyro
        a1 := (m.a1 : ℝ) / m.n * m.scaleAccel
        a2 := (m.a2 : ℝ) / m.n * m.scaleAccel
        a3 := (m.a3 : ℝ) / m.n * m.scaleAccel
        gaError := false }
    else { r0 with gaError := true }
  let r2 :=
    if m.nm > 0 then
      { r1 with
        m1 := (m.m1 : ℝ) / m.nm
        m2 := (m.m2 : ℝ) / m.nm
        m3 := (m.m3 : ℝ) / m.nm
        magError := false }
    else if useMag then { r1 with magError := true }
    else { r1 with magError := false }
  (r2,
    { m with
      g1 := 0, g2 := 0, g3 := 0, a1 := 0, a2 := 0, a3 := 0
      m1 := 0, m2 := 0, m3 := 0, n := 0, nm := 0 })

/-- An accumulator state with two gyro/accel samples pending and no
magnetometer samples. -/
noncomputable def mpuC10 : MPUState :=
  { scaleGyro := 3, scaleAccel := 5, sampleRate := 10, n := 2, nm := 0
    g1 := 4, g2 := 6, g3 := 8, a1 := 10, a2 := 12, a3 := 14
    m1 := 0, m2 := 0, m3 := 0, a01 := 0, a02 := 0, a03 := 0
    g01 := 0, g02 := 0, g03 := 0, mcal1 := 1, mcal2 := 1, mcal3 := 1 }

end Mpu

namespace Ahrs

theorem mset_apply {r c : ℕ} (A : Matrix (Fin r) (Fin c) ℝ) (i j : ℕ) (v : ℝ)
    (a : Fin r) (b : Fin c) :
    mset A i j v a b = if (a : ℕ) = i ∧ (b : ℕ) = j then v else A a b := rfl

theorem ite_mat_apply {r c : ℕ} (P : Prop) [Decidable P]
    (A B : Matrix (Fin r) (Fin c) ℝ) (a : Fin r) (b : Fin c) :
    (if P then A else B) a b = if P then A a b else B a b := by
  split_ifs <;> rfl

/-- C1: refuted on the code.  For the unit quaternion `E = (3/5, 0, 0, 4/5)`
the nine-entry cache written by `normalize` is not orthogonal and does not
have determinant 1: the first diagonal entry of `R·Rᵀ` and `det R` both
equal `49/625 ≠ 1`, because the source assigns `e21` twice (lines 81 and 83
of `src/ahrs/ahrs.go`) and never refreshes `e12`, which stays at its prior
value `0` even though the value derived from the current quaternion is
`2*(E0*E3 + E1*E2) = 24/25`. -/
theorem rotation_cache_e12_stale :
    (normalize stateC1).e11 ^ 2 + (normalize stateC1).e12 ^ 2
        + (normalize stateC1).e13 ^ 2 = 49 / 625
      ∧ eDet (normalize stateC1) = 49 / 625
      ∧ (normalize stateC1).e12 = 0
      ∧ 2 * ((normalize stateC1).E0 * (normalize stateC1).E3
          + (normalize stateC1).E1 * (normalize stateC1).E2) = 24 / 25
      ∧ ((49 : ℝ) / 625) ≠ 1 := by
  refine ⟨?_, ?_, ?_, ?_, by norm_num⟩ <;>
    norm_num [normalize, eDet, stateC1, baseState, Real.sqrt_one]

/-- C3: refuted on the code.  With identity quaternions, `N = 0` and
`L = (1,0,0)`, the spec's map gives `M1 = L1 = 1` but the code returns
`M1 = 2`: `PredictMeasurement` adds `L` inside the aircraft-frame
intermediate `m1`..`m3` (lines 353-355 of `src/ahrs/ahrs.go`) and again
after the sensor-frame rotation (lines 356-358). -/
theorem magnetometer_bias_added_twice :
    (predictMeasurement stateC3).2.M1 = 2
      ∧ (specMagnetometer stateC3).1 = 1
      ∧ ((2 : ℝ) ≠ 1) := by
  refine ⟨?_, ?_, by norm_num⟩ <;>
    norm_num [predictMeasurement, specMagnetometer, normalize, stateC3,
      baseState, Real.sqrt_one]

theorem normalize_eNormSq (s : State) (hE : eNormSq s ≠ 0) :
    eNormSq (normalize s) = 1 := by
  have h0 : (0 : ℝ) ≤ eNormSq s := by
    have a0 := mul_self_nonneg s.E0
    have a1 := mul_self_nonneg s.E1
    have a2 := mul_self_nonneg s.E2
    have a3 := mul_self_nonneg s.E3
    unfold eNormSq
    linarith
  have hq : 0 < eNormSq s := lt_of_le_of_ne h0 (Ne.symm hE)
  have hs : 0 < Real.sqrt (eNormSq s) := Real.sqrt_pos.mpr hq
  have hss : Real.sqrt (eNormSq s) * Real.sqrt (eNormSq s) = eNormSq s :=
    Real.mul_self_sqrt hq.le
  simp only [normalize, eNormSq] at hss hs ⊢
  field_simp
  linarith [hss]

theorem normalize_fNormSq (s : State) (hF : fNormSq s ≠ 0) :
    fNormSq (normalize s) = 1 := by
  have h0 : (0 : ℝ) ≤ fNormSq s := by
    have a0 := mul_self_nonneg s.F0
    have a1 := mul_self_nonneg s.F1
    have a2 := mul_self_nonneg s.F2
    have a3 := mul_self_nonneg s.F3
    unfold fNormSq
    linarith
  have hq : 0 < fNormSq s := lt_of_le_of_ne h0 (Ne.symm hF)
  have hs : 0 < Real.sqrt (fNormSq s) := Real.sqrt_pos.mpr hq
  have hss : Real.sqrt (fNormSq s) * Real.sqrt (fNormSq s) = fNormSq s :=
    Real.mul_self_sqrt hq.le
  simp only [normalize, fNormSq] at hss hs ⊢
  field_simp
  linarith [hss]

theorem mget_zero {r c : ℕ} (i j : ℕ) :
    mget (0 : Matrix (Fin r) (Fin c) ℝ) i j = 0 := by
  unfold mget
  by_cases hi : i < r
  · by_cases hj : j < c
    · simp [hi, hj]
    · simp [hi, hj]
  · simp [hi]

/-- C4: confirmed.  Whenever the quaternions entering the final
renormalization are nonzero, both quaternions are exactly unit-norm after
`Predict`, and after any `Update` that applies a correction (signalled by
the warning flag being `false`). -/
theorem unit_quaternions_after_steps (s : State) (t : ℝ) (m : Measurement)
    (h1 : eNormSq (predictPre s t) ≠ 0) (h2 : fNormSq (predictPre s t) ≠ 0)
    (h3 : eNormSq (updateCorrected s m) ≠ 0)
    (h4 : fNormSq (updateCorrected s m) ≠ 0) :
    (eNormSq (Predict s t) = 1 ∧ fNormSq (Predict s t) = 1)
      ∧ ((Update s m).2 = false →
          eNormSq (Update s m).1 = 1 ∧ fNormSq (Update s m).1 = 1) := by
  constructor
  · have hPe : eNormSq (Predict s t) = eNormSq (normalize (predictPre s t)) := rfl
    have hPf : fNormSq (Predict s t) = fNormSq (normalize (predictPre s t)) := rfl
    exact ⟨hPe.trans (normalize_eNormSq _ h1), hPf.trans (normalize_fNormSq _ h2)⟩
  · intro hu
    by_cases hd : (updateS s m).det = 0
    · simp [Update, hd] at hu
    · have hU : Update s m = (normalize (updateCorrected s m), false) := by
        simp [Update, hd]
      rw [hU]
      exact ⟨normalize_eNormSq _ h3, normalize_fNormSq _ h4⟩

theorem unit_quaternions_after_steps_witness :
    (eNormSq (predictPre baseState 0) ≠ 0 ∧ fNormSq (predictPre baseState 0) ≠ 0
        ∧ eNormSq (updateCorrected baseState measC4) ≠ 0
        ∧ fNormSq (updateCorrected baseState measC4) ≠ 0)
      ∧ ((eNormSq (Predict baseState 0) = 1 ∧ fNormSq (Predict baseState 0) = 1)
          ∧ ((Update baseState measC4).2 = false →
              eNormSq (Update baseState measC4).1 = 1
                ∧ fNormSq (Update baseState measC4).1 = 1)) := by
  have hMz : (predictMeasurement baseState).1.M = (0 : Matrix (Fin 32) (Fin 32) ℝ) := rfl
  have h1 : eNormSq (predictPre baseState 0) ≠ 0 := by
    norm_num [predictPre, calcJacobianState, eNormSq, baseState]
  have h2 : fNormSq (predictPre baseState 0) ≠ 0 := by
    norm_num [predictPre, calcJacobianState, fNormSq, baseState]
  have h3 : eNormSq (updateCorrected baseState measC4) ≠ 0 := by
    simp only [updateCorrected, eNormSq, hMz, Matrix.zero_mul, mget_zero]
    norm_num [normalize, predictMeasurement, baseState, Real.sqrt_one]
  have h4 : fNormSq (updateCorrected baseState measC4) ≠ 0 := by
    simp only [updateCorrected, fNormSq, hMz, Matrix.zero_mul, mget_zero]
    norm_num [normalize, predictMeasurement, baseState, Real.sqrt_one]
  exact ⟨⟨h1, h2, h3, h4⟩, unit_quaternions_after_steps baseState 0 measC4 h1 h2 h3 h4⟩

/-- C5: confirmed.  On a state with unit quaternions, if the innovation
covariance `S = H·M·Hᵀ + R` is singular then `Update` returns with every
state scalar, the timestamp and the covariance unchanged, and the warning
flag set. -/
theorem update_singular_skips (s : State) (m : Measurement)
    (hE : eNormSq s = 1) (hF : fNormSq s = 1)
    (hS : (updateS s m).det = 0) :
    ((Update s m).1.U1 = s.U1 ∧ (Update s m).1.U2 = s.U2
        ∧ (Update s m).1.U3 = s.U3 ∧ (Update s m).1.Z1 = s.Z1
        ∧ (Update s m).1.Z2 = s.Z2 ∧ (Update s m).1.Z3 = s.Z3
        ∧ (Update s m).1.E0 = s.E0 ∧ (Update s m).1.E1 = s.E1
        ∧ (Update s m).1.E2 = s.E2 ∧ (Update s m).1.E3 = s.E3
        ∧ (Update s m).1.H1 = s.H1 ∧ (Update s m).1.H2 = s.H2
        ∧ (Update s m).1.H3 = s.H3 ∧ (Update s m).1.N1 = s.N1
        ∧ (Update s m).1.N2 = s.N2 ∧ (Update s m).1.N3 = s.N3)
      ∧ ((Update s m).1.V1 = s.V1 ∧ (Update s m).1.V2 = s.V2
        ∧ (Update s m).1.V3 = s.V3 ∧ (Update s m).1.C1 = s.C1
        ∧ (Update s m).1.C2 = s.C2 ∧ (Update s m).1.C3 = s.C3
        ∧ (Update s m).1.F0 = s.F0 ∧ (Update s m).1.F1 = s.F1
        ∧ (Update s m).1.F2 = s.F2 ∧ (Update s m).1.F3 = s.F3
        ∧ (Update s m).1.D1 = s.D1 ∧ (Update s m).1.D2 = s.D2
        ∧ (Update s m).1.D3 = s.D3 ∧ (Update s m).1.L1 = s.L1
        ∧ (Update s m).1.L2 = s.L2 ∧ (Update s m).1.L3 = s.L3)
      ∧ (Update s m).1.T = s.T ∧ (Update s m).1.M = s.M
      ∧ (Update s m).2 = true := by
  have hu : Update s m = ((predictMeasurement s).1, true) := by
    simp [Update, hS]
  have hn : (predictMeasurement s).1 = normalize s := rfl
  have hee : Real.sqrt (s.E0 * s.E0 + s.E1 * s.E1 + s.E2 * s.E2 + s.E3 * s.E3) = 1 := by
    rw [show s.E0 * s.E0 + s.E1 * s.E1 + s.E2 * s.E2 + s.E3 * s.E3 = eNormSq s from rfl,
      hE, Real.sqrt_one]
  have hff : Real.sqrt (s.F0 * s.F0 + s.F1 * s.F1 + s.F2 * s.F2 + s.F3 * s.F3) = 1 := by
    rw [show s.F0 * s.F0 + s.F1 * s.F1 + s.F2 * s.F2 + s.F3 * s.F3 = fNormSq s from rfl,
      hF, Real.sqrt_one]
  rw [hu, hn]
  refine ⟨⟨?_, ?_, ?_, ?_, ?_, ?_, ?_, ?_, ?_, ?_, ?_, ?_, ?_, ?_, ?_, ?_⟩,
    ⟨?_, ?_, ?_, ?_, ?_, ?_, ?_, ?_, ?_, ?_, ?_, ?_, ?_, ?_, ?_, ?_⟩, ?_, ?_, rfl⟩ <;>
    simp [normalize, hee, hff]

set_option maxHeartbeats 1000000 in
theorem updateS_baseState_measC5_det : (updateS baseState measC5).det = 0 := by
  have hMz : (predictMeasurement baseState).1.M
      = (0 : Matrix (Fin 32) (Fin 32) ℝ) := rfl
  have h0 : updateS baseState measC5 = updateR measC5 := by
    rw [updateS, hMz]
    simp only [Matrix.zero_mul, Matrix.mul_zero, zero_add]
  rw [h0]
  refine Matrix.det_zero_of_row_eq (i := 0) (j := 3) (by decide) ?_
  have hU : measC5.UValid = false := rfl
  have hW : measC5.WValid = false := rfl
  have hSv : measC5.SValid = false := rfl
  have hMv : measC5.MValid = false := rfl
  have hMM : measC5.M = mset (mset (0 : Matrix (Fin 15) (Fin 15) ℝ) 0 3 Big) 3 0 Big := rfl
  funext b
  by_cases hb0 : (b : ℕ) = 0 <;> by_cases hb3 : (b : ℕ) = 3 <;>
    simp [updateR, hU, hW, hSv, hMv, hMM, mset, Matrix.of_apply, hb0, hb3,
      show ((0 : Fin 15) : ℕ) = 0 from rfl, show ((3 : Fin 15) : ℕ) = 3 from rfl]

theorem update_singular_skips_witness :
    (eNormSq baseState = 1 ∧ fNormSq baseState = 1
        ∧ (updateS baseState measC5).det = 0)
      ∧ (Update baseState measC5).1.U1 = baseState.U1
      ∧ (Update baseState measC5).1.E0 = baseState.E0
      ∧ (Update baseState measC5).1.T = baseState.T
      ∧ (Update baseState measC5).1.M = baseState.M
      ∧ (Update baseState measC5).2 = true := by
  have hE : eNormSq baseState = 1 := by norm_num [eNormSq, baseState]
  have hF : fNormSq baseState = 1 := by norm_num [fNormSq, baseState]
  have hS := updateS_baseState_measC5_det
  have h := update_singular_skips baseState measC5 hE hF hS
  exact ⟨⟨hE, hF, hS⟩, h.1.1, h.1.2.2.2.2.2.2.1, h.2.2.1, h.2.2.2.1, h.2.2.2.2⟩

set_option maxHeartbeats 800000 in
/-- C6 (amended): the validity-flag policy of `Update`.  The pitot flag
governs only row 0; rows 1 and 2 always receive diagonal `25` and their
innovations are never zeroed (`src/ahrs/ahrs.go` lines 227-230); the GPS
(3-5), accel/gyro (6-11) and magnetometer (12-14) groups get `Big`
diagonals with zeroed innovations when invalid, and small diagonals
(`0.2`; `0.2`/`1`; `5`) when valid. -/
theorem sensor_group_policy (s : State) (m : Measurement) :
    ((updateR m 0 0 = if m.UValid then 2 else Big)
      ∧ updateR m 1 1 = 25 ∧ updateR m 2 2 = 25
      ∧ (updateY s m 0 0
          = if m.UValid then m.U1 - (predictMeasurement s).2.U1 else 0)
      ∧ updateY s m 1 0 = m.U2 - (predictMeasurement s).2.U2
      ∧ updateY s m 2 0 = m.U3 - (predictMeasurement s).2.U3)
    ∧ ((updateR m 3 3 = if m.WValid then 0.2 else Big)
      ∧ (updateR m 4 4 = if m.WValid then 0.2 else Big)
      ∧ (updateR m 5 5 = if m.WValid then 0.2 else Big)
      ∧ (updateY s m 3 0
          = if m.WValid then m.W1 - (predictMeasurement s).2.W1 else 0)
      ∧ (updateY s m 4 0
          = if m.WValid then m.W2 - (predictMeasurement s).2.W2 else 0)
      ∧ (updateY s m 5 0
          = if m.WValid then m.W3 - (predictMeasurement s).2.W3 else 0))
    ∧ ((updateR m 6 6 = if m.SValid then 0.2 else Big)
      ∧ (updateR m 7 7 = if m.SValid then 0.2 else Big)
      ∧ (updateR m 8 8 = if m.SValid then 0.2 else Big)
      ∧ (updateR m 9 9 = if m.SValid then 1 else Big)
      ∧ (updateR m 10 10 = if m.SValid then 1 else Big)
      ∧ (updateR m 11 11 = if m.SValid then 1 else Big)
      ∧ (updateY s m 6 0
          = if m.SValid then m.A1 - (predictMeasurement s).2.A1 else 0)
      ∧ (updateY s m 7 0
          = if m.SValid then m.A2 - (predictMeasurement s).2.A2 else 0)
      ∧ (updateY s m 8 0
          = if m.SValid then m.A3 - (predictMeasurement s).2.A3 else 0)
      ∧ (updateY s m 9 0
          = if m.SValid then m.B1 - (predictMeasurement s).2.B1 else 0)
      ∧ (updateY s m 10 0
          = if m.SValid then m.B2 - (predictMeasurement s).2.B2 else 0)
      ∧ (updateY s m 11 0
          = if m.SValid then m.B3 - (predictMeasurement s).2.B3 else 0))
    ∧ ((updateR m 12 12 = if m.MValid then 5 else Big)
      ∧ (updateR m 13 13 = if m.MValid then 5 else Big)
      ∧ (updateR m 14 14 = if m.MValid then 5 else Big)
      ∧ (updateY s m 12 0
          = if m.MValid then m.M1 - (predictMeasurement s).2.M1 else 0)
      ∧ (updateY s m 13 0
          = if m.MValid then m.M2 - (predictMeasurement s).2.M2 else 0)
      ∧ (updateY s m 14 0
          = if m.MValid then m.M3 - (predictMeasurement s).2.M3 else 0)) := by
  simp only [updateY, updateYraw, updateR]
  generalize (predictMeasurement s).2 = z
  refine ⟨⟨?_, ?_, ?_, ?_, ?_, ?_⟩, ⟨?_, ?_, ?_, ?_, ?_, ?_⟩,
    ⟨?_, ?_, ?_, ?_, ?_, ?_, ?_, ?_, ?_, ?_, ?_, ?_⟩, ?_, ?_, ?_, ?_, ?_, ?_⟩ <;>
    norm_num [ite_mat_apply, mset_apply,
        show ((0 : Fin 15) : ℕ) = 0 from rfl, show ((1 : Fin 15) : ℕ) = 1 from rfl,
        show ((2 : Fin 15) : ℕ) = 2 from rfl, show ((3 : Fin 15) : ℕ) = 3 from rfl,
        show ((4 : Fin 15) : ℕ) = 4 from rfl, show ((5 : Fin 15) : ℕ) = 5 from rfl,
        show ((6 : Fin 15) : ℕ) = 6 from rfl, show ((7 : Fin 15) : ℕ) = 7 from rfl,
        show ((8 : Fin 15) : ℕ) = 8 from rfl, show ((9 : Fin 15) : ℕ) = 9 from rfl,
        show ((10 : Fin 15) : ℕ) = 10 from rfl, show ((11 : Fin 15) : ℕ) = 11 from rfl,
        show ((12 : Fin 15) : ℕ) = 12 from rfl, show ((13 : Fin 15) : ℕ) = 13 from rfl,
        show ((14 : Fin 15) : ℕ) = 14 from rfl, show ((0 : Fin 1) : ℕ) = 0 from rfl]

/-- C6 as stated is refuted: with the pitot flag false, diagonal row 1 of
the noise covariance is `25`, not the sentinel `Big`, and the row-1
innovation is `1`, not zero. -/
theorem pitot_group_not_all_sentinel :
    measC6.UValid = false
      ∧ updateR measC6 1 1 = 25 ∧ (25 : ℝ) ≠ Big
      ∧ updateY baseState measC6 1 0 = 1 ∧ (1 : ℝ) ≠ 0 := by
  refine ⟨rfl, ?_, by norm_num [Big], ?_, by norm_num⟩
  · simp [updateR, mset, Matrix.of_apply,
      show measC6.UValid = false from rfl, show measC6.WValid = false from rfl,
      show measC6.SValid = false from rfl, show measC6.MValid = false from rfl,
      show ((1 : Fin 15) : ℕ) = 1 from rfl]
  · have hz : (predictMeasurement baseState).2.U2 = 0 := by
      simp [predictMeasurement, normalize, baseState]
    simp [updateY, updateYraw, mset, Matrix.of_apply, hz,
      show measC6.UValid = false from rfl, show measC6.WValid = false from rfl,
      show measC6.SValid = false from rfl, show measC6.MValid = false from rfl,
      show measC6.U2 = 1 from rfl,
      show ((1 : Fin 15) : ℕ) = 1 from rfl, show ((0 : Fin 1) : ℕ) = 0 from rfl]

theorem predictPre_c2_E0 : (predictPre stateC2 1).E0 = 1 - Deg ^ 2 / 4 := by
  norm_num [predictPre, calcJacobianState, stateC2, baseState]
  ring

theorem predictPre_c2_E1 : (predictPre stateC2 1).E1 = Deg - Deg ^ 3 / 8 := by
  norm_num [predictPre, calcJacobianState, stateC2, baseState]
  ring

theorem predictPre_c2_E2 : (predictPre stateC2 1).E2 = 0 := by
  norm_num [predictPre, calcJacobianState, stateC2, baseState]

theorem predictPre_c2_E3 : (predictPre stateC2 1).E3 = 0 := by
  norm_num [predictPre, calcJacobianState, stateC2, baseState]

theorem specPre_c2_E0 : (specEulerPre stateC2 1).E0 = 1 := by
  norm_num [specEulerPre, stateC2, baseState]

theorem specPre_c2_E1 : (specEulerPre stateC2 1).E1 = Deg / 2 := by
  norm_num [specEulerPre, stateC2, baseState]
  ring

theorem specPre_c2_E2 : (specEulerPre stateC2 1).E2 = 0 := by
  norm_num [specEulerPre, stateC2, baseState]

theorem specPre_c2_E3 : (specEulerPre stateC2 1).E3 = 0 := by
  norm_num [specEulerPre, stateC2, baseState]

theorem predict_c2_E0 : (Predict stateC2 1).E0
    = (1 - Deg ^ 2 / 4) / Real.sqrt ((1 - Deg ^ 2 / 4) * (1 - Deg ^ 2 / 4)
        + (Deg - Deg ^ 3 / 8) * (Deg - Deg ^ 3 / 8)) := by
  have h : (Predict stateC2 1).E0 = (normalize (predictPre stateC2 1)).E0 := rfl
  rw [h]
  show (predictPre stateC2 1).E0 / Real.sqrt ((predictPre stateC2 1).E0 * (predictPre stateC2 1).E0
      + (predictPre stateC2 1).E1 * (predictPre stateC2 1).E1
      + (predictPre stateC2 1).E2 * (predictPre stateC2 1).E2
      + (predictPre stateC2 1).E3 * (predictPre stateC2 1).E3) = _
  rw [predictPre_c2_E0, predictPre_c2_E1, predictPre_c2_E2, predictPre_c2_E3]
  norm_num

theorem predict_c2_E1 : (Predict stateC2 1).E1
    = (Deg - Deg ^ 3 / 8) / Real.sqrt ((1 - Deg ^ 2 / 4) * (1 - Deg ^ 2 / 4)
        + (Deg - Deg ^ 3 / 8) * (Deg - Deg ^ 3 / 8)) := by
  have h : (Predict stateC2 1).E1 = (normalize (predictPre stateC2 1)).E1 := rfl
  rw [h]
  show (predictPre stateC2 1).E1 / Real.sqrt ((predictPre stateC2 1).E0 * (predictPre stateC2 1).E0
      + (predictPre stateC2 1).E1 * (predictPre stateC2 1).E1
      + (predictPre stateC2 1).E2 * (predictPre stateC2 1).E2
      + (predictPre stateC2 1).E3 * (predictPre stateC2 1).E3) = _
  rw [predictPre_c2_E0, predictPre_c2_E1, predictPre_c2_E2, predictPre_c2_E3]
  norm_num

theorem spec_c2_E0 : (specEulerPredict stateC2 1).E0
    = 1 / Real.sqrt (1 + (Deg / 2) * (Deg / 2)) := by
  have h : (specEulerPredict stateC2 1).E0 = (normalize (specEulerPre stateC2 1)).E0 := rfl
  rw [h]
  show (specEulerPre stateC2 1).E0 / Real.sqrt ((specEulerPre stateC2 1).E0 * (specEulerPre stateC2 1).E0
      + (specEulerPre stateC2 1).E1 * (specEulerPre stateC2 1).E1
      + (specEulerPre stateC2 1).E2 * (specEulerPre stateC2 1).E2
      + (specEulerPre stateC2 1).E3 * (specEulerPre stateC2 1).E3) = _
  rw [specPre_c2_E0, specPre_c2_E1, specPre_c2_E2, specPre_c2_E3]
  norm_num

theorem spec_c2_E1 : (specEulerPredict stateC2 1).E1
    = (Deg / 2) / Real.sqrt (1 + (Deg / 2) * (Deg / 2)) := by
  have h : (specEulerPredict stateC2 1).E1 = (normalize (specEulerPre stateC2 1)).E1 := rfl
  rw [h]
  show (specEulerPre stateC2 1).E1 / Real.sqrt ((specEulerPre stateC2 1).E0 * (specEulerPre stateC2 1).E0
      + (specEulerPre stateC2 1).E1 * (specEulerPre stateC2 1).E1
      + (specEulerPre stateC2 1).E2 * (specEulerPre stateC2 1).E2
      + (specEulerPre stateC2 1).E3 * (specEulerPre stateC2 1).E3) = _
  rw [specPre_c2_E0, specPre_c2_E1, specPre_c2_E2, specPre_c2_E3]
  norm_num

/-- C2: refuted on the code.  At the state with `H = (1,0,0)` and
`E = (1,0,0,0)`, stepping to `t = 1` yields a renormalized quaternion that
differs from the spec's single Euler step: `calcJacobianState` already
mutates `E` by a full increment (lines 376-379 of `src/ahrs/ahrs.go`)
before `Predict` applies the increment again (lines 184-187), so the code
integrates the attitude at twice the commanded rate. -/
theorem predict_applies_euler_step_twice :
    ¬ ((Predict stateC2 1).E0 = (specEulerPredict stateC2 1).E0
        ∧ (Predict stateC2 1).E1 = (specEulerPredict stateC2 1).E1) := by
  rintro ⟨h0, h1⟩
  rw [predict_c2_E0, spec_c2_E0] at h0
  rw [predict_c2_E1, spec_c2_E1] at h1
  have hDpos : 0 < Deg := by
    rw [Deg]
    positivity
  have hDlt : Deg < 1 := by
    rw [Deg]
    have h := Real.pi_lt_d2
    linarith
  have hA0 : 0 < 1 - Deg ^ 2 / 4 := by nlinarith
  have hq1 : 0 < (1 - Deg ^ 2 / 4) * (1 - Deg ^ 2 / 4)
      + (Deg - Deg ^ 3 / 8) * (Deg - Deg ^ 3 / 8) := by
    nlinarith [mul_self_nonneg (Deg - Deg ^ 3 / 8)]
  have hq2 : 0 < 1 + (Deg / 2) * (Deg / 2) := by nlinarith
  have hn1 : 0 < Real.sqrt ((1 - Deg ^ 2 / 4) * (1 - Deg ^ 2 / 4)
      + (Deg - Deg ^ 3 / 8) * (Deg - Deg ^ 3 / 8)) := Real.sqrt_pos.mpr hq1
  have hn2 : 0 < Real.sqrt (1 + (Deg / 2) * (Deg / 2)) := Real.sqrt_pos.mpr hq2
  rw [div_eq_div_iff hn1.ne' hn2.ne'] at h0 h1
  nlinarith [h0, h1, hn1, hn2, hDpos]

end Ahrs

namespace Sim

/-- C9 (amended): for every quaternion with positive norm the heading
returned by `FromQuaternion` lies in `[-1e-4, 2π)` — the wrap threshold of
line 60 of `src/sim/ahrs_sim.go` leaves the band `[-1e-4, 0)` unwrapped. -/
theorem heading_range (q0 q1 q2 q3 : ℝ)
    (h : 0 < q0 * q0 + q1 * q1 + q2 * q2 + q3 * q3) :
    -1e-4 ≤ (FromQuaternion q0 q1 q2 q3).2.2
      ∧ (FromQuaternion q0 q1 q2 q3).2.2 < 2 * π := by
  have hpi := Real.pi_pos
  have ha1 := Complex.arg_le_pi
    (Complex.ofReal (q0 * q0 + q1 * q1 - q2 * q2 - q3 * q3)
      + Complex.ofReal (2 * (q0 * q3 - q1 * q2)) * Complex.I)
  have ha2 := Complex.neg_pi_lt_arg
    (Complex.ofReal (q0 * q0 + q1 * q1 - q2 * q2 - q3 * q3)
      + Complex.ofReal (2 * (q0 * q3 - q1 * q2)) * Complex.I)
  simp only [FromQuaternion, atan2]
  split_ifs with hw
  · constructor <;> nlinarith
  · constructor
    · nlinarith [hw]
    · nlinarith

theorem heading_range_witness :
    (0 : ℝ) < 1 * 1 + 0 * 0 + 0 * 0 + 0 * 0
      ∧ (-1e-4 ≤ (FromQuaternion 1 0 0 0).2.2
          ∧ (FromQuaternion 1 0 0 0).2.2 < 2 * π) := by
  refine ⟨by norm_num, heading_range 1 0 0 0 (by norm_num)⟩

/-- In the third quadrant, when the real part is tiny compared to the
imaginary part, `atan2` lands just below `-π/2`, inside the wrap gap. -/
theorem atan2_bounds_third (y x : ℝ) (hx : x < 0) (hy : y < 0)
    (hratio : -x ≤ Real.sin 1e-4 * -y) :
    -(π / 2) - 1e-4 ≤ atan2 y x ∧ atan2 y x < -(π / 2) := by
  have hpi := Real.pi_pos
  unfold atan2
  set z : ℂ := Complex.ofReal x + Complex.ofReal y * Complex.I with hzdef
  have hre : z.re = x := by simp [hzdef]
  have him : z.im = y := by simp [hzdef]
  have hzne : z ≠ 0 := by
    intro h
    rw [h] at hre
    simp at hre
    exact absurd hre.symm (ne_of_lt hx)
  have habs_pos : 0 < Complex.abs z := Complex.abs.pos hzne
  have habs_imle : -y ≤ Complex.abs z := by
    have h := Complex.abs_im_le_abs z
    rw [him, abs_of_neg hy] at h
    exact h
  have hcos : Real.cos (Complex.arg z) = x / Complex.abs z := by
    rw [Complex.cos_arg hzne, hre]
  have hsin : Real.sin (Complex.arg z) = y / Complex.abs z := by
    rw [Complex.sin_arg, him]
  have harg_hi := Complex.arg_le_pi z
  have harg_lo := Complex.neg_pi_lt_arg z
  have hlt : Complex.arg z < -(π / 2) := by
    by_contra hc
    push_neg at hc
    have hneg : Complex.arg z < 0 := by
      by_contra h0
      push_neg at h0
      have h1 : 0 ≤ Real.sin (Complex.arg z) :=
        Real.sin_nonneg_of_nonneg_of_le_pi h0 harg_hi
      rw [hsin] at h1
      have h2 : y / Complex.abs z < 0 := div_neg_of_neg_of_pos hy habs_pos
      linarith
    have h2 : 0 ≤ Real.cos (Complex.arg z) :=
      Real.cos_nonneg_of_mem_Icc ⟨hc, by linarith⟩
    rw [hcos] at h2
    have h3 : x / Complex.abs z < 0 := div_neg_of_neg_of_pos hx habs_pos
    linarith
  refine ⟨?_, hlt⟩
  by_contra hc
  push_neg at hc
  have hb1 : 1e-4 + π / 2 < -Complex.arg z := by linarith
  have hb2 : -Complex.arg z ≤ π := by linarith
  have hmono := Real.cos_lt_cos_of_nonneg_of_le_pi (by positivity) hb2 hb1
  rw [Real.cos_neg, Real.cos_add_pi_div_two] at hmono
  rw [hcos] at hmono
  have hs_pos : 0 < Real.sin 1e-4 := by
    apply Real.sin_pos_of_pos_of_lt_pi (by norm_num)
    nlinarith
  have hxz : -Real.sin 1e-4 ≤ x / Complex.abs z := by
    rw [neg_le, ← neg_div, div_le_iff₀ habs_pos]
    have h5 : Real.sin 1e-4 * -y ≤ Real.sin 1e-4 * Complex.abs z :=
      mul_le_mul_of_nonneg_left habs_imle hs_pos.le
    linarith
  linarith

/-- C9: refuted on the code.  The quaternion `(1, 0, 0, -100001/100000)`
has positive norm, yet `FromQuaternion` returns a strictly negative
heading: the wrap branch only fires below `-1e-4`, leaving headings in
`[-1e-4, 0)` unwrapped. -/
theorem heading_wrap_gap :
    (FromQuaternion 1 0 0 (-(100001 / 100000))).2.2 < 0 := by
  have hb := atan2_bounds_third (2 * ((1:ℝ) * -(100001 / 100000) - 0 * 0))
      ((1:ℝ) * 1 + 0 * 0 - 0 * 0 - -(100001 / 100000) * -(100001 / 100000))
      (by norm_num) (by norm_num)
      (by
        have hsin_lb : (1e-4 : ℝ) - (1e-4) ^ 3 / 4 < Real.sin 1e-4 :=
          Real.sin_gt_sub_cube (by norm_num) (by norm_num)
        nlinarith)
  have hpi := Real.pi_pos
  simp only [FromQuaternion]
  rw [if_neg (by push_neg; linarith [hb.1])]
  linarith [hb.2]

theorem searchGE_le_length (l : List ℝ) (x : ℝ) : searchGE l x ≤ l.length := by
  induction l with
  | nil => simp [searchGE]
  | cons a rest ih =>
    simp only [searchGE, List.length_cons]
    split_ifs
    · omega
    · omega

theorem searchGE_getD_ge (l : List ℝ) (x : ℝ) (h : searchGE l x < l.length) :
    x ≤ l.getD (searchGE l x) 0 := by
  induction l with
  | nil => simp [searchGE] at h
  | cons a rest ih =>
    simp only [searchGE, List.length_cons] at h ⊢
    split_ifs at h ⊢ with hc
    · simpa [List.getD_cons_zero] using hc
    · rw [List.getD_cons_succ]
      exact ih (by omega)

theorem searchGE_getD_lt (l : List ℝ) (x : ℝ) (i : ℕ) (h : i < searchGE l x) :
    l.getD i 0 < x := by
  induction l generalizing i with
  | nil => simp [searchGE] at h
  | cons a rest ih =>
    simp only [searchGE] at h
    split_ifs at h with hc
    · omega
    · cases i with
      | zero => simpa [List.getD_cons_zero] using not_le.mp hc
      | succ n =>
        rw [List.getD_cons_succ]
        exact ih n (by omega)

theorem searchGE_le_of_getD (l : List ℝ) (x : ℝ) (k : ℕ) (hk : k < l.length)
    (hx : x ≤ l.getD k 0) : searchGE l x ≤ k := by
  induction l generalizing k with
  | nil => simp at hk
  | cons a rest ih =>
    simp only [searchGE]
    split_ifs with hc
    · omega
    · cases k with
      | zero =>
        rw [List.getD_cons_zero] at hx
        exact absurd hx hc
      | succ n =>
        rw [List.getD_cons_succ] at hx
        simp only [List.length_cons] at hk
        have := ih n (by omega) hx
        omega

theorem searchGE_pos (l : List ℝ) (x : ℝ) (h1 : 0 < l.length)
    (h2 : l.getD 0 0 < x) : 0 < searchGE l x := by
  cases l with
  | nil => simp at h1
  | cons a rest =>
    rw [List.getD_cons_zero] at h2
    simp only [searchGE]
    rw [if_neg (not_le.mpr h2)]
    omega

theorem chain_lt_getD (l : List ℝ) (hl : List.Chain' (· < ·) l) (i : ℕ)
    (h : i + 1 < l.length) : l.getD i 0 < l.getD (i + 1) 0 := by
  rw [List.getD_eq_getElem l 0 (by omega), List.getD_eq_getElem l 0 h]
  have hg := List.chain'_iff_get.mp hl i (by omega)
  simpa [List.get_eq_getElem] using hg

theorem lerp_eq (t0 t1 v0 v1 x : ℝ) (h : t0 < t1) :
    (t1 - x) / (t1 - t0) * v0 + (1 - (t1 - x) / (t1 - t0)) * v1
      = lerp t0 t1 v0 v1 x := by
  unfold lerp
  have hne : t1 - t0 ≠ 0 := by linarith
  field_simp
  ring

theorem interpolate_linear_fields (s : Situation) (t : ℝ)
    (hcond : ¬(t < s.t.getD 0 0 ∨ s.t.getD (s.t.length - 1) 0 < t)) :
    (interpolate s t).2 = false
      ∧ ((interpolate s t).1.U1
          = (s.t.getD (interpIx s t + 1) 0 - t)
              / (s.t.getD (interpIx s t + 1) 0 - s.t.getD (interpIx s t) 0)
              * s.u1.getD (interpIx s t) 0
            + (1 - (s.t.getD (interpIx s t + 1) 0 - t)
              / (s.t.getD (interpIx s t + 1) 0 - s.t.getD (interpIx s t) 0))
              * s.u1.getD (interpIx s t + 1) 0)
      ∧ ((interpolate s t).1.U2
          = (s.t.getD (interpIx s t + 1) 0 - t)
              / (s.t.getD (interpIx s t + 1) 0 - s.t.getD (interpIx s t) 0)
              * s.u2.getD (interpIx s t) 0
            + (1 - (s.t.getD (interpIx s t + 1) 0 - t)
              / (s.t.getD (interpIx s t + 1) 0 - s.t.getD (interpIx s t) 0))
              * s.u2.getD (interpIx s t + 1) 0)
      ∧ ((interpolate s t).1.U3
          = (s.t.getD (interpIx s t + 1) 0 - t)
              / (s.t.getD (interpIx s t + 1) 0 - s.t.getD (interpIx s t) 0)
              * s.u3.getD (interpIx s t) 0
            + (1 - (s.t.getD (interpIx s t + 1) 0 - t)
              / (s.t.getD (interpIx s t + 1) 0 - s.t.getD (interpIx s t) 0))
              * s.u3.getD (interpIx s t + 1) 0)
      ∧ ((interpolate s t).1.V1
          = (s.t.getD (interpIx s t + 1) 0 - t)
              / (s.t.getD (interpIx s t + 1) 0 - s.t.getD (interpIx s t) 0)
              * s.v1.getD (interpIx s t) 0
            + (1 - (s.t.getD (interpIx s t + 1) 0 - t)
              / (s.t.getD (interpIx s t + 1) 0 - s.t.getD (interpIx s t) 0))
              * s.v1.getD (interpIx s t + 1) 0)
      ∧ ((interpolate s t).1.V2
          = (s.t.getD (interpIx s t + 1) 0 - t)
              / (s.t.getD (interpIx s t + 1) 0 - s.t.getD (interpIx s t) 0)
              * s.v2.getD (interpIx s t) 0
            + (1 - (s.t.getD (interpIx s t + 1) 0 - t)
              / (s.t.getD (interpIx s t + 1) 0 - s.t.getD (interpIx s t) 0))
              * s.v2.getD (interpIx s t + 1) 0)
      ∧ ((interpolate s t).1.V3
          = (s.t.getD (interpIx s t + 1) 0 - t)
              / (s.t.getD (interpIx s t + 1) 0 - s.t.getD (interpIx s t) 0)
              * s.v3.getD (interpIx s t) 0
            + (1 - (s.t.getD (interpIx s t + 1) 0 - t)
              / (s.t.getD (interpIx s t + 1) 0 - s.t.getD (interpIx s t) 0))
              * s.v3.getD (interpIx s t + 1) 0)
      ∧ ((interpolate s t).1.M1
          = (s.t.getD (interpIx s t + 1) 0 - t)
              / (s.t.getD (interpIx s t + 1) 0 - s.t.getD (interpIx s t) 0)
              * s.m1.getD (interpIx s t) 0
            + (1 - (s.t.getD (interpIx s t + 1) 0 - t)
              / (s.t.getD (interpIx s t + 1) 0 - s.t.getD (interpIx s t) 0))
              * s.m1.getD (interpIx s t + 1) 0)
      ∧ ((interpolate s t).1.M2
          = (s.t.getD (interpIx s t + 1) 0 - t)
              / (s.t.getD (interpIx s t + 1) 0 - s.t.getD (interpIx s t) 0)
              * s.m2.getD (interpIx s t) 0
            + (1 - (s.t.getD (interpIx s t + 1) 0 - t)
              / (s.t.getD (interpIx s t + 1) 0 - s.t.getD (interpIx s t) 0))
              * s.m2.getD (interpIx s t + 1) 0)
      ∧ ((interpolate s t).1.M3
          = (s.t.getD (interpIx s t + 1) 0 - t)
              / (s.t.getD (interpIx s t + 1) 0 - s.t.getD (interpIx s t) 0)
              * s.m3.getD (interpIx s t) 0
            + (1 - (s.t.getD (interpIx s t + 1) 0 - t)
              / (s.t.getD (interpIx s t + 1) 0 - s.t.getD (interpIx s t) 0))
              * s.m3.getD (interpIx s t + 1) 0) := by
  unfold interpolate interpIx
  rw [if_neg hcond]
  exact ⟨rfl, rfl, rfl, rfl, rfl, rfl, rfl, rfl, rfl, rfl⟩

/-- C8: out-of-range queries error with the zero value, and in-range
queries succeed with the piecewise-linear interpolation between the
bracketing keyframes. -/
theorem simulator_range_and_interpolation (s : Situation) (t : ℝ) :
    ((t < s.t.getD 0 0 ∨ s.t.getD (s.t.length - 1) 0 < t) →
      interpolate s t = (zeroSimState, true)
        ∧ derivative s t = (zeroSimState, true)
        ∧ measurement s t = (zeroSimMeasurement, true))
    ∧ (List.Chain' (· < ·) s.t → 2 ≤ s.t.length →
        s.t.getD 0 0 ≤ t → t ≤ s.t.getD (s.t.length - 1) 0 →
        (interpolate s t).2 = false
          ∧ s.t.getD (interpIx s t) 0 ≤ t
          ∧ t ≤ s.t.getD (interpIx s t + 1) 0
          ∧ s.t.getD (interpIx s t) 0 < s.t.getD (interpIx s t + 1) 0
          ∧ interpIx s t + 1 ≤ s.t.length - 1
          ∧ (interpolate s t).1.U1 = lerp (s.t.getD (interpIx s t) 0)
              (s.t.getD (interpIx s t + 1) 0) (s.u1.getD (interpIx s t) 0)
              (s.u1.getD (interpIx s t + 1) 0) t
          ∧ (interpolate s t).1.U2 = lerp (s.t.getD (interpIx s t) 0)
              (s.t.getD (interpIx s t + 1) 0) (s.u2.getD (interpIx s t) 0)
              (s.u2.getD (interpIx s t + 1) 0) t
          ∧ (interpolate s t).1.U3 = lerp (s.t.getD (interpIx s t) 0)
              (s.t.getD (interpIx s t + 1) 0) (s.u3.getD (interpIx s t) 0)
              (s.u3.getD (interpIx s t + 1) 0) t
          ∧ (interpolate s t).1.V1 = lerp (s.t.getD (interpIx s t) 0)
              (s.t.getD (interpIx s t + 1) 0) (s.v1.getD (interpIx s t) 0)
              (s.v1.getD (interpIx s t + 1) 0) t
          ∧ (interpolate s t).1.V2 = lerp (s.t.getD (interpIx s t) 0)
              (s.t.getD (interpIx s t + 1) 0) (s.v2.getD (interpIx s t) 0)
              (s.v2.getD (interpIx s t + 1) 0) t
          ∧ (interpolate s t).1.V3 = lerp (s.t.getD (interpIx s t) 0)
              (s.t.getD (interpIx s t + 1) 0) (s.v3.getD (interpIx s t) 0)
              (s.v3.getD (interpIx s t + 1) 0) t
          ∧ (interpolate s t).1.M1 = lerp (s.t.getD (interpIx s t) 0)
              (s.t.getD (interpIx s t + 1) 0) (s.m1.getD (interpIx s t) 0)
              (s.m1.getD (interpIx s t + 1) 0) t
          ∧ (interpolate s t).1.M2 = lerp (s.t.getD (interpIx s t) 0)
              (s.t.getD (interpIx s t + 1) 0) (s.m2.getD (interpIx s t) 0)
              (s.m2.getD (interpIx s t + 1) 0) t
          ∧ (interpolate s t).1.M3 = lerp (s.t.getD (interpIx s t) 0)
              (s.t.getD (interpIx s t + 1) 0) (s.m3.getD (interpIx s t) 0)
              (s.m3.getD (interpIx s t + 1) 0) t) := by
  constructor
  · intro h
    refine ⟨?_, ?_, ?_⟩
    · unfold interpolate
      rw [if_pos h]
    · unfold derivative
      rw [if_pos h]
    · unfold measurement
      rw [if_pos h]
  · intro hch hlen hlo hhi
    have hcond : ¬(t < s.t.getD 0 0 ∨ s.t.getD (s.t.length - 1) 0 < t) :=
      not_or.mpr ⟨not_lt.mpr hlo, not_lt.mpr hhi⟩
    have hbr : s.t.getD (interpIx s t) 0 ≤ t
        ∧ t ≤ s.t.getD (interpIx s t + 1) 0
        ∧ s.t.getD (interpIx s t) 0 < s.t.getD (interpIx s t + 1) 0
        ∧ interpIx s t + 1 ≤ s.t.length - 1 := by
      by_cases hlt : s.t.getD 0 0 < t
      · have hj_pos : 0 < searchGE s.t t := searchGE_pos _ _ (by omega) hlt
        have hj_le : searchGE s.t t ≤ s.t.length - 1 :=
          searchGE_le_of_getD _ _ (s.t.length - 1) (by omega) hhi
        have hgeT : t ≤ s.t.getD (searchGE s.t t) 0 :=
          searchGE_getD_ge _ _ (by omega)
        have hltT : s.t.getD (searchGE s.t t - 1) 0 < t :=
          searchGE_getD_lt _ _ _ (by omega)
        have hix : interpIx s t = searchGE s.t t - 1 := by
          unfold interpIx
          rw [if_pos hlt]
        have hix1 : interpIx s t + 1 = searchGE s.t t := by omega
        refine ⟨?_, ?_, ?_, ?_⟩
        · rw [hix]
          linarith
        · rw [hix1]
          exact hgeT
        · rw [hix1, hix]
          linarith
        · omega
      · have hteq : t = s.t.getD 0 0 := le_antisymm (not_lt.mp hlt) hlo
        have hix : interpIx s t = 0 := by
          unfold interpIx
          rw [if_neg hlt]
        have hstrict : s.t.getD 0 0 < s.t.getD 1 0 :=
          chain_lt_getD s.t hch 0 (by omega)
        refine ⟨?_, ?_, ?_, ?_⟩
        · rw [hix, ← hteq]
        · rw [hix]
          rw [hteq]
          exact hstrict.le
        · rw [hix]
          exact hstrict
        · omega
    obtain ⟨hb1, hb2, hb3, hb4⟩ := hbr
    obtain ⟨hf0, hf1, hf2, hf3, hf4, hf5, hf6, hf7, hf8, hf9⟩ :=
      interpolate_linear_fields s t hcond
    refine ⟨hf0, hb1, hb2, hb3, hb4, ?_, ?_, ?_, ?_, ?_, ?_, ?_, ?_, ?_⟩
    · rw [hf1]
      exact lerp_eq _ _ _ _ _ hb3
    · rw [hf2]
      exact lerp_eq _ _ _ _ _ hb3
    · rw [hf3]
      exact lerp_eq _ _ _ _ _ hb3
    · rw [hf4]
      exact lerp_eq _ _ _ _ _ hb3
    · rw [hf5]
      exact lerp_eq _ _ _ _ _ hb3
    · rw [hf6]
      exact lerp_eq _ _ _ _ _ hb3
    · rw [hf7]
      exact lerp_eq _ _ _ _ _ hb3
    · rw [hf8]
      exact lerp_eq _ _ _ _ _ hb3
    · rw [hf9]
      exact lerp_eq _ _ _ _ _ hb3

theorem simulator_range_and_interpolation_witness :
    interpolate sitC8 2 = (zeroSimState, true)
      ∧ measurement sitC8 2 = (zeroSimMeasurement, true)
      ∧ (interpolate sitC8 (1 / 2)).2 = false
      ∧ (interpolate sitC8 (1 / 2)).1.U1
        = lerp (sitC8.t.getD (interpIx sitC8 (1 / 2)) 0)
            (sitC8.t.getD (interpIx sitC8 (1 / 2) + 1) 0)
            (sitC8.u1.getD (interpIx sitC8 (1 / 2)) 0)
            (sitC8.u1.getD (interpIx sitC8 (1 / 2) + 1) 0) (1 / 2) := by
  have h1 := (simulator_range_and_interpolation sitC8 2).1
    (by right; norm_num [sitC8])
  have h2 := (simulator_range_and_interpolation sitC8 (1 / 2)).2
    (by norm_num [sitC8, List.chain'_cons, List.chain'_singleton])
    (by norm_num [sitC8])
    (by norm_num [sitC8])
    (by norm_num [sitC8])
  exact ⟨h1.1, h1.2.2, h2.1, h2.2.2.2.2.2.1⟩

theorem fromQ_phi (a b c d : ℝ) :
    (FromQuaternion a b c d).1
      = atan2 (-2 * (a * b - c * d)) (a * a - b * b - c * c + d * d) := rfl

theorem fromQ_theta (a b c d : ℝ) :
    (FromQuaternion a b c d).2.1
      = Real.arcsin (2 * (a * c + d * b)
          / Real.sqrt (a * a + b * b + c * c + d * d)) := rfl

theorem fromQ_psi (a b c d : ℝ) :
    (FromQuaternion a b c d).2.2
      = if π / 2 + atan2 (2 * (a * d - b * c)) (a * a + b * b - c * c - d * d)
            < -1e-4
        then π / 2 + atan2 (2 * (a * d - b * c)) (a * a + b * b - c * c - d * d)
          + 2 * π
        else π / 2
          + atan2 (2 * (a * d - b * c)) (a * a + b * b - c * c - d * d) := rfl

/-- `atan2` of a positively scaled sine/cosine pair recovers the angle
modulo 2π. -/
theorem atan2_mul_cos_sin (r x : ℝ) (hr : 0 < r) :
    ∃ k : ℤ, atan2 (r * Real.sin x) (r * Real.cos x) = x + 2 * π * k := by
  have h2pi : (0 : ℝ) < 2 * π := by positivity
  set n := toIocDiv h2pi (-π) x with hn
  set y := toIocMod h2pi (-π) x with hy
  have hmem := toIocMod_mem_Ioc h2pi (-π) x
  have hmem2 : y ∈ Set.Ioc (-π) π := by
    rcases hmem with ⟨h1, h2⟩
    exact ⟨h1, by linarith⟩
  have hdiff := toIocMod_add_toIocDiv_zsmul h2pi (-π) x
  have hxeq : x = y + (n : ℝ) * (2 * π) := by
    have h := hdiff
    rw [zsmul_eq_mul] at h
    linarith
  have hsin : Real.sin x = Real.sin y := by
    rw [hxeq, Real.sin_add_int_mul_two_pi]
  have hcos : Real.cos x = Real.cos y := by
    rw [hxeq, Real.cos_add_int_mul_two_pi]
  refine ⟨-n, ?_⟩
  have harg : atan2 (r * Real.sin x) (r * Real.cos x) = y := by
    rw [hsin, hcos]
    unfold atan2
    rw [show Complex.ofReal (r * Real.cos y) + Complex.ofReal (r * Real.sin y) * Complex.I
        = (r : ℂ) * (Complex.cos y + Complex.sin y * Complex.I) by
      push_cast [Complex.ofReal_cos, Complex.ofReal_sin]
      ring]
    exact Complex.arg_mul_cos_add_sin_mul_I hr hmem2
  rw [harg, hxeq]
  push_cast
  ring

/-- C7: the round trip recovers the Tait-Bryan angles modulo 2π whenever
the pitch is bounded away from the gimbal lock. -/
theorem to_from_quaternion_roundtrip (φ θ ψ : ℝ) (hθ : |θ| < π / 2 - 0.01) :
    ∃ j k : ℤ,
      FromQuaternion (ToQuaternion φ θ ψ).1 (ToQuaternion φ θ ψ).2.1
          (ToQuaternion φ θ ψ).2.2.1 (ToQuaternion φ θ ψ).2.2.2
        = (φ + 2 * π * j, θ, ψ + 2 * π * k) := by
  have hpi := Real.pi_pos
  have habs := abs_lt.mp hθ
  have hcosθ : 0 < Real.cos θ :=
    Real.cos_pos_of_mem_Ioo ⟨by linarith [habs.1], by linarith [habs.2]⟩
  have hA := Real.sin_sq_add_cos_sq (φ / 2)
  have hB := Real.sin_sq_add_cos_sq (θ / 2)
  have hC := Real.sin_sq_add_cos_sq ((ψ - π / 2) / 2)
  have hsφ : Real.sin φ = 2 * Real.sin (φ / 2) * Real.cos (φ / 2) := by
    have h := Real.sin_two_mul (φ / 2)
    rw [show 2 * (φ / 2) = φ by ring] at h
    exact h
  have hcφ : Real.cos φ = Real.cos (φ / 2) ^ 2 - Real.sin (φ / 2) ^ 2 := by
    have h := Real.cos_two_mul (φ / 2)
    rw [show 2 * (φ / 2) = φ by ring] at h
    nlinarith [hA]
  have hsθ : Real.sin θ = 2 * Real.sin (θ / 2) * Real.cos (θ / 2) := by
    have h := Real.sin_two_mul (θ / 2)
    rw [show 2 * (θ / 2) = θ by ring] at h
    exact h
  have hcθ : Real.cos θ = Real.cos (θ / 2) ^ 2 - Real.sin (θ / 2) ^ 2 := by
    have h := Real.cos_two_mul (θ / 2)
    rw [show 2 * (θ / 2) = θ by ring] at h
    nlinarith [hB]
  have hsψ : Real.sin (ψ - π / 2)
      = 2 * Real.sin ((ψ - π / 2) / 2) * Real.cos ((ψ - π / 2) / 2) := by
    have h := Real.sin_two_mul ((ψ - π / 2) / 2)
    rw [show 2 * ((ψ - π / 2) / 2) = ψ - π / 2 by ring] at h
    exact h
  have hcψ : Real.cos (ψ - π / 2)
      = Real.cos ((ψ - π / 2) / 2) ^ 2 - Real.sin ((ψ - π / 2) / 2) ^ 2 := by
    have h := Real.cos_two_mul ((ψ - π / 2) / 2)
    rw [show 2 * ((ψ - π / 2) / 2) = ψ - π / 2 by ring] at h
    nlinarith [hC]
  have hq0 : (ToQuaternion φ θ ψ).1
      = Real.cos (φ / 2) * Real.cos (θ / 2) * Real.cos ((ψ - π / 2) / 2)
        + Real.sin (φ / 2) * Real.sin (θ / 2) * Real.sin ((ψ - π / 2) / 2) := by
    simp only [ToQuaternion, neg_div, Real.cos_neg, Real.sin_neg]
    ring
  have hq1 : (ToQuaternion φ θ ψ).2.1
      = Real.cos (φ / 2) * Real.sin (θ / 2) * Real.sin ((ψ - π / 2) / 2)
        - Real.sin (φ / 2) * Real.cos (θ / 2) * Real.cos ((ψ - π / 2) / 2) := by
    simp only [ToQuaternion, neg_div, Real.cos_neg, Real.sin_neg]
    ring
  have hq2 : (ToQuaternion φ θ ψ).2.2.1
      = Real.cos (φ / 2) * Real.sin (θ / 2) * Real.cos ((ψ - π / 2) / 2)
        + Real.sin (φ / 2) * Real.cos (θ / 2) * Real.sin ((ψ - π / 2) / 2) := by
    simp only [ToQuaternion, neg_div, Real.cos_neg, Real.sin_neg]
    ring
  have hq3 : (ToQuaternion φ θ ψ).2.2.2
      = Real.cos (φ / 2) * Real.cos (θ / 2) * Real.sin ((ψ - π / 2) / 2)
        - Real.sin (φ / 2) * Real.sin (θ / 2) * Real.cos ((ψ - π / 2) / 2) := by
    simp only [ToQuaternion, neg_div, Real.cos_neg, Real.sin_neg]
    ring
  obtain ⟨j, hj⟩ := atan2_mul_cos_sin (Real.cos θ) φ hcosθ
  obtain ⟨k, hk⟩ := atan2_mul_cos_sin (Real.cos θ) (ψ - π / 2) hcosθ
  have hyφ : -2 * ((ToQuaternion φ θ ψ).1 * (ToQuaternion φ θ ψ).2.1
        - (ToQuaternion φ θ ψ).2.2.1 * (ToQuaternion φ θ ψ).2.2.2)
      = Real.cos θ * Real.sin φ := by
    rw [hq0, hq1, hq2, hq3, hcθ, hsφ]
    linear_combination (2 * Real.sin (φ / 2) * Real.cos (φ / 2)
      * (Real.cos (θ / 2) ^ 2 - Real.sin (θ / 2) ^ 2)) * hC
  have hxφ : (ToQuaternion φ θ ψ).1 * (ToQuaternion φ θ ψ).1
        - (ToQuaternion φ θ ψ).2.1 * (ToQuaternion φ θ ψ).2.1
        - (ToQuaternion φ θ ψ).2.2.1 * (ToQuaternion φ θ ψ).2.2.1
        + (ToQuaternion φ θ ψ).2.2.2 * (ToQuaternion φ θ ψ).2.2.2
      = Real.cos θ * Real.cos φ := by
    rw [hq0, hq1, hq2, hq3, hcθ, hcφ]
    linear_combination ((Real.cos (φ / 2) ^ 2 - Real.sin (φ / 2) ^ 2)
      * (Real.cos (θ / 2) ^ 2 - Real.sin (θ / 2) ^ 2)) * hC
  have hnorm : (ToQuaternion φ θ ψ).1 * (ToQuaternion φ θ ψ).1
        + (ToQuaternion φ θ ψ).2.1 * (ToQuaternion φ θ ψ).2.1
        + (ToQuaternion φ θ ψ).2.2.1 * (ToQuaternion φ θ ψ).2.2.1
        + (ToQuaternion φ θ ψ).2.2.2 * (ToQuaternion φ θ ψ).2.2.2 = 1 := by
    rw [hq0, hq1, hq2, hq3]
    linear_combination ((Real.cos (θ / 2) ^ 2 + Real.sin (θ / 2) ^ 2)
        * (Real.cos ((ψ - π / 2) / 2) ^ 2 + Real.sin ((ψ - π / 2) / 2) ^ 2)) * hA
      + (Real.cos ((ψ - π / 2) / 2) ^ 2 + Real.sin ((ψ - π / 2) / 2) ^ 2) * hB
      + hC
  have hyθ : 2 * ((ToQuaternion φ θ ψ).1 * (ToQuaternion φ θ ψ).2.2.1
        + (ToQuaternion φ θ ψ).2.2.2 * (ToQuaternion φ θ ψ).2.1)
      = Real.sin θ := by
    rw [hq0, hq1, hq2, hq3, hsθ]
    linear_combination (2 * Real.sin (θ / 2) * Real.cos (θ / 2)
        * (Real.cos ((ψ - π / 2) / 2) ^ 2 + Real.sin ((ψ - π / 2) / 2) ^ 2)) * hA
      + (2 * Real.sin (θ / 2) * Real.cos (θ / 2)) * hC
  have hyψ : 2 * ((ToQuaternion φ θ ψ).1 * (ToQuaternion φ θ ψ).2.2.2
        - (ToQuaternion φ θ ψ).2.1 * (ToQuaternion φ θ ψ).2.2.1)
      = Real.cos θ * Real.sin (ψ - π / 2) := by
    rw [hq0, hq1, hq2, hq3, hcθ, hsψ]
    linear_combination (2 * Real.sin ((ψ - π / 2) / 2) * Real.cos ((ψ - π / 2) / 2)
      * (Real.cos (θ / 2) ^ 2 - Real.sin (θ / 2) ^ 2)) * hA
  have hxψ : (ToQuaternion φ θ ψ).1 * (ToQuaternion φ θ ψ).1
        + (ToQuaternion φ θ ψ).2.1 * (ToQuaternion φ θ ψ).2.1
        - (ToQuaternion φ θ ψ).2.2.1 * (ToQuaternion φ θ ψ).2.2.1
        - (ToQuaternion φ θ ψ).2.2.2 * (ToQuaternion φ θ ψ).2.2.2
      = Real.cos θ * Real.cos (ψ - π / 2) := by
    rw [hq0, hq1, hq2, hq3, hcθ, hcψ]
    linear_combination ((Real.cos (θ / 2) ^ 2 - Real.sin (θ / 2) ^ 2)
      * (Real.cos ((ψ - π / 2) / 2) ^ 2 - Real.sin ((ψ - π / 2) / 2) ^ 2)) * hA
  have hphi : (FromQuaternion (ToQuaternion φ θ ψ).1 (ToQuaternion φ θ ψ).2.1
        (ToQuaternion φ θ ψ).2.2.1 (ToQuaternion φ θ ψ).2.2.2).1
      = φ + 2 * π * j := by
    rw [fromQ_phi, hyφ, hxφ, hj]
  have htheta : (FromQuaternion (ToQuaternion φ θ ψ).1 (ToQuaternion φ θ ψ).2.1
        (ToQuaternion φ θ ψ).2.2.1 (ToQuaternion φ θ ψ).2.2.2).2.1 = θ := by
    rw [fromQ_theta, hnorm, Real.sqrt_one, div_one, hyθ]
    exact Real.arcsin_sin (by linarith [habs.1]) (by linarith [habs.2])
  have hpsi0 : (FromQuaternion (ToQuaternion φ θ ψ).1 (ToQuaternion φ θ ψ).2.1
        (ToQuaternion φ θ ψ).2.2.1 (ToQuaternion φ θ ψ).2.2.2).2.2
      = if ψ + 2 * π * k < -1e-4 then ψ + 2 * π * k + 2 * π
        else ψ + 2 * π * k := by
    rw [fromQ_psi, hyψ, hxψ, hk,
      show π / 2 + (ψ - π / 2 + 2 * π * (k : ℝ)) = ψ + 2 * π * k by ring]
  have heta : FromQuaternion (ToQuaternion φ θ ψ).1 (ToQuaternion φ θ ψ).2.1
        (ToQuaternion φ θ ψ).2.2.1 (ToQuaternion φ θ ψ).2.2.2
      = ((FromQuaternion (ToQuaternion φ θ ψ).1 (ToQuaternion φ θ ψ).2.1
          (ToQuaternion φ θ ψ).2.2.1 (ToQuaternion φ θ ψ).2.2.2).1,
        (FromQuaternion (ToQuaternion φ θ ψ).1 (ToQuaternion φ θ ψ).2.1
          (ToQuaternion φ θ ψ).2.2.1 (ToQuaternion φ θ ψ).2.2.2).2.1,
        (FromQuaternion (ToQuaternion φ θ ψ).1 (ToQuaternion φ θ ψ).2.1
          (ToQuaternion φ θ ψ).2.2.1 (ToQuaternion φ θ ψ).2.2.2).2.2) := rfl
  by_cases hw : ψ + 2 * π * (k : ℝ) < -1e-4
  · refine ⟨j, k + 1, ?_⟩
    rw [heta, hphi, htheta, hpsi0, if_pos hw,
      show ψ + 2 * π * (k : ℝ) + 2 * π = ψ + 2 * π * ((k + 1 : ℤ) : ℝ) from by
        push_cast
        ring]
  · refine ⟨j, k, ?_⟩
    rw [heta, hphi, htheta, hpsi0, if_neg hw]

theorem to_from_quaternion_roundtrip_witness :
    |(0 : ℝ)| < π / 2 - 0.01
      ∧ ∃ j k : ℤ,
        FromQuaternion (ToQuaternion 0 0 0).1 (ToQuaternion 0 0 0).2.1
            (ToQuaternion 0 0 0).2.2.1 (ToQuaternion 0 0 0).2.2.2
          = (0 + 2 * π * j, 0, 0 + 2 * π * k) := by
  have h : |(0 : ℝ)| < π / 2 - 0.01 := by
    rw [abs_zero]
    have := Real.pi_gt_three
    linarith
  exact ⟨h, to_from_quaternion_roundtrip 0 0 0 h⟩

end Sim

namespace Mpu

/-- C10: confirmed.  With no gyro/accel samples accumulated, `Read`
returns a non-nil `gaError` and zero gyro/accel values; with samples it
returns the scaled averages; in either case all nine accumulators and
both sample counts are reset before returning. -/
theorem mpu_read_averages_and_resets (useMag : Bool) (m : MPUState) :
    (¬m.n > 0 →
      (Read useMag m).1.gaError = true
        ∧ (Read useMag m).1.g1 = 0 ∧ (Read useMag m).1.g2 = 0
        ∧ (Read useMag m).1.g3 = 0 ∧ (Read useMag m).1.a1 = 0
        ∧ (Read useMag m).1.a2 = 0 ∧ (Read useMag m).1.a3 = 0)
    ∧ (m.n > 0 →
      (Read useMag m).1.gaError = false
        ∧ (Read useMag m).1.g1 = (m.g1 : ℝ) / m.n * m.scaleGyro
        ∧ (Read useMag m).1.g2 = (m.g2 : ℝ) / m.n * m.scaleGyro
        ∧ (Read useMag m).1.g3 = (m.g3 : ℝ) / m.n * m.scaleGyro
        ∧ (Read useMag m).1.a1 = (m.a1 : ℝ) / m.n * m.scaleAccel
        ∧ (Read useMag m).1.a2 = (m.a2 : ℝ) / m.n * m.scaleAccel
        ∧ (Read useMag m).1.a3 = (m.a3 : ℝ) / m.n * m.scaleAccel)
    ∧ ((Read useMag m).2.g1 = 0 ∧ (Read useMag m).2.g2 = 0
        ∧ (Read useMag m).2.g3 = 0 ∧ (Read useMag m).2.a1 = 0
        ∧ (Read useMag m).2.a2 = 0 ∧ (Read useMag m).2.a3 = 0
        ∧ (Read useMag m).2.m1 = 0 ∧ (Read useMag m).2.m2 = 0
        ∧ (Read useMag m).2.m3 = 0 ∧ (Read useMag m).2.n = 0
        ∧ (Read useMag m).2.nm = 0) := by
  refine ⟨?_, ?_, ?_⟩
  · intro hn
    by_cases hm : m.nm > 0 <;> by_cases hu : useMag = true <;>
      simp [Read, hn, hm, hu]
  · intro hn
    by_cases hm : m.nm > 0 <;> by_cases hu : useMag = true <;>
      simp [Read, hn, hm, hu]
  · by_cases hn : m.n > 0 <;> by_cases hm : m.nm > 0 <;>
      by_cases hu : useMag = true <;> simp [Read, hn, hm, hu]

theorem mpu_read_averages_and_resets_witness :
    (Read false mpuC10).1.gaError = false
      ∧ (Read false mpuC10).1.g1 = ((4 : ℤ) : ℝ) / 2 * 3
      ∧ (Read false mpuC10).2.g1 = 0
      ∧ (Read false mpuC10).2.n = 0 := by
  have h := mpu_read_averages_and_resets false mpuC10
  have hn : mpuC10.n > 0 := by norm_num [mpuC10]
  obtain ⟨h1, h2, hg1, hg2, hg3, ha1, ha2, ha3, hm1, hm2, hm3, hnn, hnm⟩ := h
  refine ⟨(h2 hn).1, ?_, hg1, hnn⟩
  have hv := (h2 hn).2.1
  simpa [mpuC10] using hv

end Mpu
